import Mathlib

/-!
# pdp_v4l2 : a video 4 linux 2 capture engine

A shallow embedding of `src/modules/pdp_v4l2.c`.  The object structure
`t_pdp_v4l2` becomes a record, every C function becomes a function on states, and
every call that leaves the module (system calls on the device, the pthread library,
the image-size policy of `pdp_imageproc`) is an explicit input of the model.
-/

namespace PdpV4l2

/-! ## Constants of the module -/

/-- Number of failed automatic opens after which no more open is attempted. -/
def PDP_XV_RETRIES : Int := 10

/-- Size of the buffer pool. -/
def WANTED_BUFFERS : Nat := 2

/-- Bound of the input enumeration. -/
def MAX_INPUT : Nat := 16

/-- Bound of the standard enumeration. -/
def MAX_NORM : Nat := 16

/-- Bound of the pixel format enumeration. -/
def MAX_FORMAT : Nat := 32

/-- Bound of each of the two control ranges. -/
def MAX_CTRL : Nat := 32

/-! ## Machine integers -/

/-- Value of a number once stored in a 32 bit unsigned integer (`u32`, `unsigned int`). -/
def u32 (n : Nat) : Nat := n % 2 ^ 32

/-- Value of an `unsigned int` once passed where an `int` is expected (two's complement). -/
def to_int (n : Nat) : Int :=
  if n % 2 ^ 32 < 2 ^ 31 then ((n % 2 ^ 32 : Nat) : Int) else ((n % 2 ^ 32 : Nat) : Int) - 2 ^ 32

/-- Value of an `int` read as a 32 bit unsigned integer (two's complement). -/
def of_int (i : Int) : Nat := (i % 2 ^ 32).toNat

/-! ## The image-size policy

`pdp_imageproc_legalwidth` and its three siblings are declared in `pdp_imageproc.h`
and belong to the image processing library; the module only calls them.  They are
inputs of the model. -/

/-- The four size functions the module calls (each takes an `int`, returns a `u32`). -/
structure Imageproc where
  /-- Stands for `pdp_imageproc_legalwidth`. -/
  legalwidth : Int → Nat
  /-- Stands for `pdp_imageproc_legalheight`. -/
  legalheight : Int → Nat
  /-- Stands for `pdp_imageproc_legalwidth_round_down`. -/
  legalwidth_round_down : Int → Nat
  /-- Stands for `pdp_imageproc_legalheight_round_down`. -/
  legalheight_round_down : Int → Nat

/-! ## The object structure -/

/-- The fields of a `struct v4l2_buffer` the module reads or writes. -/
structure V4l2Buffer where
  index : Nat
  length : Nat
  offset : Nat
deriving DecidableEq, Repr

/-- Assignment to one cell of an array. -/
def upd {α : Type} (a : Nat → α) (i : Nat) (v : α) : Nat → α :=
  fun j => if j = i then v else a j

/-- The record `t_pdp_v4l2`.  C `int` flags stay integers and are tested against zero as
in the source; `x_frame` and `x_last_frame` only ever hold the results of `^= 1` on a
starting value of zero and are natural numbers.  An array is the content of its cells by
index, and the descriptor arrays keep the one field of each descriptor that the module
uses afterwards. -/
structure t_pdp_v4l2 where
  x_initialized : Bool
  x_auto_open : Bool
  x_width : Nat
  x_height : Nat
  x_curinput : Int
  x_curstandard : Int
  x_curformat : Int
  x_freq : Int
  x_ninputs : Nat
  x_nstandards : Nat
  x_nformats : Nat
  /-- The `pixelformat` of each entry of `x_formats[MAX_FORMAT]`. -/
  x_formats : Nat → Nat
  /-- The `id` of each entry of `x_controls[MAX_CTRL*2]`. -/
  x_controls : Nat → Nat
  x_v4l2_buf : Nat → V4l2Buffer
  /-- The field `x_v4l2_format.fmt.pix.pixelformat`. -/
  x_v4l2_format_pixelformat : Nat
  /-- The field `x_reqbufs.count`. -/
  x_reqbufs_count : Nat
  /-- Addresses of the mappings, `-1` being `MAP_FAILED`. -/
  x_pdp_buf : Nat → Int
  x_tvfd : Int
  x_frame : Nat
  x_device : String
  x_continue_thread : Int
  x_frame_ready : Int
  x_only_new_frames : Int
  x_last_frame : Nat
  x_open_retry : Int
  x_minwidth : Nat
  x_maxwidth : Nat
  x_minheight : Nat
  x_maxheight : Nat

/-- The function `pdp_v4l2_new` (lines 781-824).  `pd_new` hands out zeroed memory, so the
fields the constructor does not assign are zero. -/
def pdp_v4l2_new (P : Imageproc) (vdef : String) : t_pdp_v4l2 :=
  { x_initialized := false
    x_auto_open := true
    x_width := 320
    x_height := 240
    x_curinput := -1
    x_curstandard := -1
    x_curformat := -1
    x_freq := -1
    x_ninputs := 0
    x_nstandards := 0
    x_nformats := 0
    x_formats := fun _ => 0
    x_controls := fun _ => 0
    x_v4l2_buf := fun _ => ⟨0, 0, 0⟩
    x_v4l2_format_pixelformat := 0
    x_reqbufs_count := 0
    x_pdp_buf := fun _ => 0
    x_tvfd := -1
    x_frame := 0
    x_device := if vdef ≠ "" then vdef else "/dev/video0"
    x_continue_thread := 0
    x_frame_ready := 0
    x_only_new_frames := 1
    x_last_frame := 0
    x_open_retry := PDP_XV_RETRIES
    x_minwidth := u32 (P.legalwidth 0)
    x_maxwidth := u32 (P.legalwidth_round_down 0x7fffffff)
    x_minheight := u32 (P.legalheight 0)
    x_maxheight := u32 (P.legalheight_round_down 0x7fffffff) }

/-- The function `pdp_v4l2_setlegaldim` (lines 743-759). -/
def pdp_v4l2_setlegaldim (P : Imageproc) (x : t_pdp_v4l2) (xx yy : Int) : t_pdp_v4l2 :=
  let w := u32 (P.legalwidth xx)
  let h := u32 (P.legalheight yy)
  let w := if w < x.x_maxwidth then w else x.x_maxwidth
  let w := if w > x.x_minwidth then w else x.x_minwidth
  let h := if h < x.x_maxheight then h else x.x_maxheight
  let h := if h > x.x_minheight then h else x.x_minheight
  { x with x_width := w, x_height := h }

/-- A sample size policy: sizes are the multiples of 8 between 8 and 1024. -/
def sample_policy : Imageproc :=
  { legalwidth := fun i => if i > 1024 then 1024 else if i > 0 then (((i - 1) / 8 + 1) * 8).toNat else 8
    legalheight := fun i => if i > 1024 then 1024 else if i > 0 then (((i - 1) / 8 + 1) * 8).toNat else 8
    legalwidth_round_down := fun i => if i > 1024 then 1024 else if i > 8 then ((i / 8) * 8).toNat else 8
    legalheight_round_down := fun i => if i > 1024 then 1024 else if i > 8 then ((i / 8) * 8).toNat else 8 }

/-- A size policy is a rounding onto legal sizes: every size it returns fits an `int`,
is left alone when rounded again, and the two upper bounds are legal sizes themselves. -/
structure Imageproc.Rounding (P : Imageproc) : Prop where
  width_int : ∀ i, P.legalwidth i < 2 ^ 31
  height_int : ∀ i, P.legalheight i < 2 ^ 31
  width_idem : ∀ i, P.legalwidth (P.legalwidth i : Int) = P.legalwidth i
  height_idem : ∀ i, P.legalheight (P.legalheight i : Int) = P.legalheight i
  maxwidth_int : P.legalwidth_round_down 0x7fffffff < 2 ^ 31
  maxheight_int : P.legalheight_round_down 0x7fffffff < 2 ^ 31
  maxwidth_legal : P.legalwidth (P.legalwidth_round_down 0x7fffffff : Int)
    = P.legalwidth_round_down 0x7fffffff
  maxheight_legal : P.legalheight (P.legalheight_round_down 0x7fffffff : Int)
    = P.legalheight_round_down 0x7fffffff

/-- The bounds of the engine are the ones `pdp_v4l2_new` computes (lines 816-819). -/
def construction_bounds (P : Imageproc) (x : t_pdp_v4l2) : Prop :=
  x.x_minwidth = u32 (P.legalwidth 0)
  ∧ x.x_maxwidth = u32 (P.legalwidth_round_down 0x7fffffff)
  ∧ x.x_minheight = u32 (P.legalheight 0)
  ∧ x.x_maxheight = u32 (P.legalheight_round_down 0x7fffffff)

/-! ## The device and the libraries

Every call that leaves the module is recorded in a trace together with the answer it got.
The answers of the device driver and of the C library are an input of the model: a
function of the number of calls made so far and of the call itself. -/

/-- The value of `errno` for an interrupted call. -/
def EINTR : Nat := 4

/-- The value of `errno` for a bad file descriptor. -/
def EBADF : Nat := 9

/-- The value of `errno` for "try again". -/
def EAGAIN : Nat := 11

/-- The value of `MAP_FAILED`, as an integer. -/
def MAP_FAILED : Int := -1

/-- From `linux/videodev2.h`. -/
def V4L2_CID_BASE : Nat := 0x00980900

/-- From `linux/videodev2.h`. -/
def V4L2_CID_PRIVATE_BASE : Nat := 0x08000000

/-- From `linux/videodev2.h`. -/
def V4L2_CTRL_FLAG_DISABLED : Nat := 0x0001

/-- The requests the module sends with `ioctl`, each with the part of its argument
the module fills in. -/
inductive Ioctl where
  | VIDIOC_QUERYCAP
  | VIDIOC_ENUMINPUT (index : Nat)
  | VIDIOC_S_INPUT (input : Int)
  | VIDIOC_G_INPUT
  | VIDIOC_ENUMSTD (index : Nat)
  | VIDIOC_S_STD (id : Nat)
  | VIDIOC_G_STD
  | VIDIOC_S_FREQUENCY (freq : Int)
  | VIDIOC_ENUM_FMT (index : Nat)
  | VIDIOC_G_PARM
  | VIDIOC_QUERYCTRL (id : Nat)
  | VIDIOC_S_FMT (pixelformat width height : Nat)
  | VIDIOC_REQBUFS (count : Nat)
  | VIDIOC_QUERYBUF (index : Nat)
  | VIDIOC_QBUF (index : Nat)
  | VIDIOC_DQBUF (index : Nat)
  | VIDIOC_STREAMON
  | VIDIOC_STREAMOFF
deriving DecidableEq, Repr

/-- The calls that leave the module. -/
inductive Call where
  | sys_open (path : String)
  | close (fd : Int)
  | ioctl (fd : Int) (req : Ioctl)
  | mmap (length : Nat) (fd : Int) (offset : Nat)
  | munmap (addr : Int) (length : Nat)
  | select (fd : Int)
  | pthread_create
  | pthread_join
  | exit
deriving DecidableEq, Repr

/-- What a call answers: its return value, `errno`, and up to two values written back
through its pointer argument (the granted count of `VIDIOC_REQBUFS`, the pixel format
echoed by `VIDIOC_S_FMT`, the length and offset of `VIDIOC_QUERYBUF`, the index of the
buffer handed out by `VIDIOC_DQBUF`, the flags of `VIDIOC_QUERYCTRL`, ...). -/
structure Answer where
  ret : Int
  errno : Nat
  val : Nat
  val2 : Nat
deriving DecidableEq, Repr

/-- One entry of the trace. -/
structure Event where
  call : Call
  ans : Answer
deriving DecidableEq, Repr

/-- Everything outside the object: the driver, the calls made so far (newest first), the
buffers currently enqueued to the driver, whether the process has called `exit`, and
whether an array of the object was indexed outside its bounds. -/
structure World where
  driver : Nat → Call → Answer
  trace : List Event
  queued : List Nat
  exited : Bool
  fault : Bool

/-- The answer to the next call.  An `ioctl` on a negative descriptor fails with `EBADF`
without reaching any driver, and `open` returns a descriptor or `-1`. -/
def World.answer (w : World) (c : Call) : Answer :=
  match c with
  | .ioctl fd _ => if fd < 0 then ⟨-1, EBADF, 0, 0⟩ else w.driver w.trace.length c
  | .sys_open _ =>
    if (w.driver w.trace.length c).ret < 0 then { w.driver w.trace.length c with ret := -1 }
    else w.driver w.trace.length c
  | _ => w.driver w.trace.length c

/-- Performing a call: it enters the trace; a successful `VIDIOC_QBUF` adds its buffer to
the enqueued set and a successful `VIDIOC_DQBUF` removes the buffer the driver hands out. -/
def World.log (w : World) (c : Call) : World :=
  { w with
    trace := ⟨c, w.answer c⟩ :: w.trace
    queued :=
      match c with
      | .ioctl _ (.VIDIOC_QBUF i) =>
        if (w.answer c).ret = -1 then w.queued
        else if i ∈ w.queued then w.queued else i :: w.queued
      | .ioctl _ (.VIDIOC_DQBUF _) =>
        if (w.answer c).ret = -1 then w.queued else w.queued.erase (w.answer c).val
      | _ => w.queued }

/-- The object together with its surroundings. -/
structure Sys where
  x : t_pdp_v4l2
  w : World

/-- A call of `ioctl (x->x_tvfd, req, ...)`: the answer and the state after the call. -/
def Sys.ioctl (s : Sys) (req : Ioctl) : Answer × Sys :=
  (s.w.answer (.ioctl s.x.x_tvfd req), { s with w := s.w.log (.ioctl s.x.x_tvfd req) })

/-- A call of `exit (-1)`. -/
def Sys.exit (s : Sys) : Sys :=
  { s with w := { s.w.log .exit with exited := true } }

/-- Assignment to a field of `x_v4l2_buf[i]`; outside the array it is a fault. -/
def Sys.set_buf (s : Sys) (i : Nat) (f : V4l2Buffer → V4l2Buffer) : Sys :=
  if i < WANTED_BUFFERS then
    { s with x.x_v4l2_buf := upd s.x.x_v4l2_buf i (f (s.x.x_v4l2_buf i)) }
  else { s with w.fault := true }

/-- Assignment to `x_pdp_buf[i]`; outside the array it is a fault. -/
def Sys.set_pdp_buf (s : Sys) (i : Nat) (addr : Int) : Sys :=
  if i < WANTED_BUFFERS then { s with x.x_pdp_buf := upd s.x.x_pdp_buf i addr }
  else { s with w.fault := true }

/-- The value of `x_v4l2_buf[i]`. -/
def Sys.buf (s : Sys) (i : Nat) : V4l2Buffer := s.x.x_v4l2_buf i

/-! ## Closing -/

/-- The function `pdp_v4l2_close` (lines 124-151). -/
def pdp_v4l2_close (s : Sys) : Sys :=
  let s :=
    if s.x.x_continue_thread ≠ 0 then
      { x := { s.x with x_continue_thread := 0 }, w := s.w.log .pthread_join }
    else s
  let s :=
    if s.x.x_tvfd ≥ 0 then
      { x := { s.x with x_tvfd := -1 }, w := s.w.log (.close s.x.x_tvfd) }
    else s
  if s.x.x_initialized then
    { x := { s.x with x_initialized := false }
      w := (List.range WANTED_BUFFERS).foldl
        (fun w i => w.log (.munmap (s.x.x_pdp_buf i) (s.buf i).length)) s.w }
  else s

/-- The function `pdp_v4l2_close_manual` (lines 153-157). -/
def pdp_v4l2_close_manual (s : Sys) : Sys :=
  pdp_v4l2_close { s with x.x_open_retry := PDP_XV_RETRIES }

/-- The function `pdp_v4l2_close_error` (lines 159-163). -/
def pdp_v4l2_close_error (s : Sys) : Sys :=
  let s := pdp_v4l2_close s
  if s.x.x_open_retry ≠ 0 then { s with x.x_open_retry := s.x.x_open_retry - 1 } else s

/-! ## The capture thread -/

/-- The function `pdp_v4l2_capture_frame` (lines 165-195).  Both `exit (-1)` paths end the
process; the function then does not return and the integer is of no use. -/
def pdp_v4l2_capture_frame (s : Sys) : Int × Sys :=
  let s := s.set_buf s.x.x_frame (fun b => { b with index := s.x.x_frame })
  let r := s.ioctl (.VIDIOC_DQBUF (s.buf s.x.x_frame).index)
  if r.1.ret = -1 then
    if r.1.errno = EAGAIN then (0, r.2) else (-1, r.2.exit)
  else
    let s := r.2.set_buf r.2.x.x_frame (fun b => { b with index := r.1.val })
    let q := s.ioctl (.VIDIOC_QBUF (s.buf s.x.x_frame).index)
    if q.1.ret = -1 then (-1, q.2.exit) else (0, q.2)

/-- The function `pdp_v4l2_wait_frame` (lines 197-223). -/
def pdp_v4l2_wait_frame (s : Sys) : Sys :=
  let ret := (s.w.answer (.select s.x.x_tvfd)).ret
  let errno := (s.w.answer (.select s.x.x_tvfd)).errno
  let s := { s with w := s.w.log (.select s.x.x_tvfd) }
  if ret = -1 then
    if errno = EINTR then s else pdp_v4l2_close s
  else if ret = 0 then pdp_v4l2_close s
  else s

/-- The function `pdp_v4l2_start_capturing` (lines 225-237). -/
def pdp_v4l2_start_capturing (s : Sys) : Int × Sys :=
  let r := s.ioctl .VIDIOC_STREAMON
  if r.1.ret = -1 then (-1, r.2) else (0, r.2)

/-- The function `pdp_v4l2_stop_capturing` (lines 239-250). -/
def pdp_v4l2_stop_capturing (s : Sys) : Int × Sys :=
  let r := s.ioctl .VIDIOC_STREAMOFF
  if r.1.ret = -1 then (-1, r.2) else (0, r.2)

/-- The start of `pdp_v4l2_thread`, up to the loop (lines 254-261). -/
def pdp_v4l2_thread_enter (s : Sys) : Sys :=
  let s := { s with x.x_frame := s.x.x_frame ^^^ 0x1 }
  let r := pdp_v4l2_start_capturing s
  if r.1 = -1 then r.2.exit else r.2

/-- The body of the loop of `pdp_v4l2_thread` (lines 266-275).  When
`pdp_v4l2_capture_frame` ends the process nothing is executed after it. -/
def pdp_v4l2_thread_body (s : Sys) : Sys :=
  let s := pdp_v4l2_wait_frame s
  let s := { s with x.x_frame := s.x.x_frame ^^^ 0x1 }
  let r := pdp_v4l2_capture_frame s
  if r.2.w.exited then r.2
  else { r.2 with x.x_frame_ready := 1, x.x_last_frame := r.2.x.x_frame }

/-- The loop `while (x->x_continue_thread)` of `pdp_v4l2_thread` (lines 264-276), followed
for at most `n` rounds.  The result tells whether the loop was left. -/
def pdp_v4l2_thread_loop : Nat → Sys → Bool × Sys
  | 0, s => (decide (s.x.x_continue_thread = 0) || s.w.exited, s)
  | n + 1, s =>
    if s.w.exited then (true, s)
    else if s.x.x_continue_thread ≠ 0 then pdp_v4l2_thread_loop n (pdp_v4l2_thread_body s)
    else (true, s)

/-- The end of `pdp_v4l2_thread`, after the loop (lines 278-284). -/
def pdp_v4l2_thread_leave (s : Sys) : Sys :=
  (pdp_v4l2_stop_capturing s).2

/-! ## Opening -/

/-- The function `pdp_v4l2_set_format` (lines 289-319). -/
def pdp_v4l2_set_format (s : Sys) (index : Nat) : Int × Sys :=
  let s := { s with x.x_v4l2_format_pixelformat := s.x.x_formats index }
  let r := s.ioctl (.VIDIOC_S_FMT s.x.x_v4l2_format_pixelformat s.x.x_width s.x.x_height)
  if r.1.ret = -1 then (-1, r.2)
  else
    let s : Sys := { r.2 with x.x_v4l2_format_pixelformat := r.1.val }
    if s.x.x_v4l2_format_pixelformat ≠ s.x.x_formats index then (-1, s) else (0, s)

/-- The answer of the driver to the request `pdp_v4l2_set_format s index` sends. -/
def set_format_answer (s : Sys) (index : Nat) : Answer :=
  s.w.answer (.ioctl s.x.x_tvfd (.VIDIOC_S_FMT (s.x.x_formats index) s.x.x_width s.x.x_height))

/-- The first loop of `pdp_v4l2_init_mmap` (lines 337-355), from index `i` on: query and
map each granted buffer.  The first argument counts the rounds left; the loop is entered
with `x_reqbufs.count` of them, which is what it needs. -/
def init_mmap_map : Nat → Nat → Sys → Int × Sys
  | 0, _, s => (0, s)
  | fuel + 1, i, s =>
    if i < s.x.x_reqbufs_count then
      let s := s.set_buf i (fun b => { b with index := i })
      let r := s.ioctl (.VIDIOC_QUERYBUF i)
      if r.1.ret = -1 then (-1, r.2)
      else
        let s := r.2.set_buf i (fun b => { b with length := r.1.val, offset := r.1.val2 })
        let c := Call.mmap (s.buf i).length s.x.x_tvfd (s.buf i).offset
        let addr := (s.w.answer c).ret
        let s := ({ s with w := s.w.log c } : Sys).set_pdp_buf i addr
        if addr = MAP_FAILED then (-1, s) else init_mmap_map fuel (i + 1) s
    else (0, s)

/-- The second loop of `pdp_v4l2_init_mmap` (lines 358-369), from index `i` on: enqueue
`WANTED_BUFFERS` buffers.  The first argument counts the rounds left. -/
def init_mmap_queue : Nat → Nat → Sys → Int × Sys
  | 0, _, s => (0, s)
  | fuel + 1, i, s =>
    if i < WANTED_BUFFERS then
      let s := s.set_buf i (fun b => { b with index := i })
      let r := s.ioctl (.VIDIOC_QBUF (s.buf i).index)
      if r.1.ret = -1 then (-1, r.2) else init_mmap_queue fuel (i + 1) r.2
    else (0, s)

/-- The function `pdp_v4l2_init_mmap` (lines 321-373). -/
def pdp_v4l2_init_mmap (s : Sys) : Int × Sys :=
  let s := { s with x.x_reqbufs_count := WANTED_BUFFERS }
  let r := s.ioctl (.VIDIOC_REQBUFS s.x.x_reqbufs_count)
  if r.1.ret = -1 then (-1, r.2)
  else
    let s : Sys := { r.2 with x.x_reqbufs_count := u32 r.1.val }
    let m := init_mmap_map s.x.x_reqbufs_count 0 s
    if m.1 = -1 then m
    else init_mmap_queue WANTED_BUFFERS 0 m.2

/-- The body and condition of the loop of lines 416-427.  The first argument counts the
rounds left. -/
def open_enum_inputs_from : Nat → Sys → Sys
  | 0, s => s
  | fuel + 1, s =>
    if s.x.x_ninputs < MAX_INPUT then
      let r := s.ioctl (.VIDIOC_ENUMINPUT s.x.x_ninputs)
      if r.1.ret = -1 then r.2
      else open_enum_inputs_from fuel { r.2 with x.x_ninputs := r.2.x.x_ninputs + 1 }
    else s

/-- The loop of lines 416-427: enumerate the inputs until the driver refuses an index or
`MAX_INPUT` of them are known. -/
def open_enum_inputs (s : Sys) : Sys :=
  open_enum_inputs_from MAX_INPUT { s with x.x_ninputs := 0 }

/-- Lines 430-453: switch to the wanted input and read the current one back. -/
def open_select_input (s : Sys) : Sys :=
  if s.x.x_ninputs > 0 then
    let s := if s.x.x_curinput < 0 then { s with x.x_curinput := 0 } else s
    let s :=
      if s.x.x_curinput ≥ s.x.x_ninputs then { s with x.x_curinput := (s.x.x_ninputs : Int) - 1 }
      else s
    let s := (s.ioctl (.VIDIOC_S_INPUT s.x.x_curinput)).2
    let r := s.ioctl .VIDIOC_G_INPUT
    if r.1.ret < 0 then r.2 else { r.2 with x.x_curinput := to_int r.1.val }
  else s

/-- The body and condition of the loop of lines 455-466.  The first argument counts the
rounds left. -/
def open_enum_standards_from : Nat → Sys → Sys
  | 0, s => s
  | fuel + 1, s =>
    if s.x.x_nstandards < MAX_NORM then
      let r := s.ioctl (.VIDIOC_ENUMSTD s.x.x_nstandards)
      if r.1.ret = -1 then r.2
      else open_enum_standards_from fuel { r.2 with x.x_nstandards := r.2.x.x_nstandards + 1 }
    else s

/-- The loop of lines 455-466: enumerate the standards. -/
def open_enum_standards (s : Sys) : Sys :=
  open_enum_standards_from MAX_NORM { s with x.x_nstandards := 0 }

/-- Lines 470-493: switch to the wanted standard and read the current one back.
`VIDIOC_S_STD` and `VIDIOC_G_STD` work on a `v4l2_std_id` of 64 bits, and the source hands
them `&x->x_curstandard`, an `int` of 32 bits that `x_curformat` follows directly in the
structure.  The request therefore reads the two fields as one number, and the answer is
written over both: its low half lands in `x_curstandard` and its high half in
`x_curformat` (the byte order of the PC). -/
def open_select_standard (s : Sys) : Sys :=
  if s.x.x_nstandards > 0 then
    let s := if s.x.x_curstandard < 0 then { s with x.x_curstandard := 0 } else s
    let s :=
      if s.x.x_curstandard ≥ s.x.x_nstandards then
        { s with x.x_curstandard := (s.x.x_nstandards : Int) - 1 }
      else s
    let s :=
      (s.ioctl (.VIDIOC_S_STD (of_int s.x.x_curstandard + 2 ^ 32 * of_int s.x.x_curformat))).2
    let r := s.ioctl .VIDIOC_G_STD
    if r.1.ret < 0 then r.2
    else
      { r.2 with
        x.x_curstandard := to_int r.1.val
        x.x_curformat := to_int (r.1.val / 2 ^ 32) }
  else s

/-- Lines 495-498: set the tuner frequency when one is wanted. -/
def open_set_freq (s : Sys) : Sys :=
  if s.x.x_freq > 0 then (s.ioctl (.VIDIOC_S_FREQUENCY s.x.x_freq)).2 else s

/-- The body and condition of the loop of lines 500-512; the driver fills
`x_formats[x_nformats]` when it accepts the index.  The first argument counts the rounds
left. -/
def open_enum_formats_from : Nat → Sys → Sys
  | 0, s => s
  | fuel + 1, s =>
    if s.x.x_nformats < MAX_FORMAT then
      let r := s.ioctl (.VIDIOC_ENUM_FMT s.x.x_nformats)
      if r.1.ret = -1 then r.2
      else
        open_enum_formats_from fuel
          { r.2 with
            x.x_formats := upd r.2.x.x_formats r.2.x.x_nformats r.1.val
            x.x_nformats := r.2.x.x_nformats + 1 }
    else s

/-- The loop of lines 500-512: enumerate the pixel formats. -/
def open_enum_formats (s : Sys) : Sys :=
  open_enum_formats_from MAX_FORMAT { s with x.x_nformats := 0 }

/-- Lines 515-516: read the stream parameters; the result is not looked at. -/
def open_get_parm (s : Sys) : Sys := (s.ioctl .VIDIOC_G_PARM).2

/-- One round of the loops of lines 519-532: query control `base + i`, stored at
`x_controls[i + off]`; a control the driver refuses or flags as disabled gets the id `-1`. -/
def open_query_control (base off : Nat) (s : Sys) (i : Nat) : Sys :=
  let r := s.ioctl (.VIDIOC_QUERYCTRL (base + i))
  if r.1.ret = -1 ∨ r.1.val &&& V4L2_CTRL_FLAG_DISABLED ≠ 0 then
    { r.2 with x.x_controls := upd r.2.x.x_controls (i + off) (u32 (2 ^ 32 - 1)) }
  else { r.2 with x.x_controls := upd r.2.x.x_controls (i + off) (base + i) }

/-- The two loops of lines 519-532: the standard controls, then the private ones. -/
def open_query_controls (s : Sys) : Sys :=
  (List.range MAX_CTRL).foldl (open_query_control V4L2_CID_PRIVATE_BASE MAX_CTRL)
    ((List.range MAX_CTRL).foldl (open_query_control V4L2_CID_BASE 0) s)

/-- Lines 413-532 of `pdp_v4l2_open`: the enumeration of inputs, standards, formats and
controls, between the capability query and the choice of the format. -/
def open_negotiate (s : Sys) : Sys :=
  open_query_controls (open_get_parm (open_enum_formats (open_set_freq
    (open_select_standard (open_enum_standards (open_select_input (open_enum_inputs s)))))))

/-- Where a part of `pdp_v4l2_open` ends: the function has returned, or it goes on. -/
inductive Flow where
  | returned (s : Sys)
  | goes_on (s : Sys)

/-- The state a part of `pdp_v4l2_open` ends in. -/
def Flow.state : Flow → Sys
  | .returned s => s
  | .goes_on s => s

/-- Lines 387-411 of `pdp_v4l2_open`: give up when the retry count is zero, open the
device node and query its capabilities. -/
def open_node (s : Sys) (name : String) : Flow :=
  if s.x.x_open_retry = 0 then .returned s
  else
    let s := { s with x.x_device := name }
    let fd := (s.w.answer (.sys_open name)).ret
    let s : Sys := { x := { s.x with x_tvfd := fd }, w := s.w.log (.sys_open name) }
    if s.x.x_tvfd < 0 then
      .returned { pdp_v4l2_close_error s with x.x_initialized := false }
    else
      let r := s.ioctl .VIDIOC_QUERYCAP
      if r.1.ret < 0 then .returned r.2 else .goes_on r.2

/-- Lines 384-411 of `pdp_v4l2_open`: close when already opened, then open the node. -/
def open_device (s : Sys) (name : String) : Flow :=
  open_node (if s.x.x_initialized then pdp_v4l2_close s else s) name

/-- Lines 536-537 of `pdp_v4l2_open`: bring `x_curformat` into the range of the known
formats. -/
def open_clamp_format (s : Sys) : Sys :=
  let s := if s.x.x_curformat < 0 then { s with x.x_curformat := 0 } else s
  if s.x.x_curformat ≥ s.x.x_nformats then { s with x.x_curformat := (s.x.x_nformats : Int) - 1 }
  else s

/-- Lines 534-554 of `pdp_v4l2_open`: bring `x_curformat` into range and set the format. -/
def open_format (s : Sys) : Flow :=
  if s.x.x_nformats > 0 then
    let s := open_clamp_format s
    let r := pdp_v4l2_set_format s s.x.x_curformat.toNat
    if r.1 < 0 then .returned { pdp_v4l2_close_error r.2 with x.x_initialized := false }
    else .goes_on r.2
  else .returned { pdp_v4l2_close_error s with x.x_initialized := false }

/-- Lines 556-572 of `pdp_v4l2_open`: map the buffers and create the thread. -/
def open_stream (s : Sys) : Sys :=
  let r := pdp_v4l2_init_mmap s
  if r.1 < 0 then { pdp_v4l2_close_error r.2 with x.x_initialized := false }
  else
    { x := { r.2.x with x_initialized := true, x_continue_thread := 1, x_frame_ready := 0 }
      w := r.2.w.log .pthread_create }

/-- The function `pdp_v4l2_open` (lines 375-573). -/
def pdp_v4l2_open (s : Sys) (name : String) : Sys :=
  match open_device s name with
  | .returned s => s
  | .goes_on s =>
    match open_format (open_negotiate s) with
    | .returned s => s
    | .goes_on s => open_stream s

/-- The function `pdp_v4l2_open_manual` (lines 575-579). -/
def pdp_v4l2_open_manual (s : Sys) (name : String) : Sys :=
  pdp_v4l2_open { s with x.x_open_retry := PDP_XV_RETRIES } name

/-! ## Reconfiguration and polling -/

/-- The function `pdp_v4l2_input` (lines 582-598); `f` is the value of `(int)f`. -/
def pdp_v4l2_input (s : Sys) (f : Int) : Sys :=
  if ¬ s.x.x_initialized then s
  else if f < 0 ∨ f ≥ s.x.x_ninputs then s
  else
    let s := pdp_v4l2_close s
    let s := { s with x.x_curinput := f }
    pdp_v4l2_open s s.x.x_device

/-- The function `pdp_v4l2_standard` (lines 600-616); `f` is the value of `(int)f`. -/
def pdp_v4l2_standard (s : Sys) (f : Int) : Sys :=
  if ¬ s.x.x_initialized then s
  else if f < 0 ∨ f ≥ s.x.x_nstandards then s
  else
    let s := pdp_v4l2_close s
    let s := { s with x.x_curstandard := f }
    pdp_v4l2_open s s.x.x_device

/-- The function `pdp_v4l2_format` (lines 618-634); `f` is the value of `(int)f`. -/
def pdp_v4l2_format (s : Sys) (f : Int) : Sys :=
  if ¬ s.x.x_initialized then s
  else if f < 0 ∨ f ≥ s.x.x_nformats then s
  else
    let s := pdp_v4l2_close s
    let s := { s with x.x_curformat := f }
    pdp_v4l2_open s s.x.x_device

/-- The function `pdp_v4l2_dim` (lines 761-772); `xx`, `yy` are the values of `(int)xx`,
`(int)yy`. -/
def pdp_v4l2_dim (P : Imageproc) (s : Sys) (xx yy : Int) : Sys :=
  if ¬ s.x.x_initialized then s
  else
    let s := pdp_v4l2_close s
    let s := { s with x := pdp_v4l2_setlegaldim P s.x xx yy }
    pdp_v4l2_open s s.x.x_device

/-- The function `pdp_v4l2_free` (lines 774-777). -/
def pdp_v4l2_free (s : Sys) : Sys := pdp_v4l2_close s

/-- What a poll hands to the converter and the outlet: the buffer slot, its address, and
the format and size the frame is read with. -/
structure Delivery where
  slot : Nat
  newimage : Int
  pixelformat : Nat
  width : Nat
  height : Nat
deriving DecidableEq, Repr

/-- Lines 690-738 of `pdp_v4l2_bang`: hand out the last frame unless only new frames are
wanted and none came.  The packet comes from the packet pool of the host; `header_ok`
tells whether `pdp_packet_header` returned a header. -/
def bang_frame (s : Sys) (header_ok : Bool) : Option Delivery × Sys :=
  if s.x.x_frame_ready = 0 ∧ s.x.x_only_new_frames ≠ 0 then (none, s)
  else
    let s := { s with x.x_frame_ready := 0 }
    if ¬ header_ok then (none, s)
    else
      (some
        { slot := s.x.x_last_frame
          newimage := s.x.x_pdp_buf s.x.x_last_frame
          pixelformat := s.x.x_v4l2_format_pixelformat
          width := s.x.x_width
          height := s.x.x_height },
       s)

/-- The function `pdp_v4l2_bang` (lines 662-740). -/
def pdp_v4l2_bang (s : Sys) (header_ok : Bool) : Option Delivery × Sys :=
  if ¬ s.x.x_initialized then
    if s.x.x_auto_open then
      let s := pdp_v4l2_open s s.x.x_device
      if ¬ s.x.x_initialized then (none, s) else bang_frame s header_ok
    else (none, s)
  else bang_frame s header_ok

/-! ## Observations on the trace -/

/-- The event is a call of `mmap` that returned a mapping. -/
def Event.is_mmap_ok (e : Event) : Bool :=
  match e.call with
  | .mmap _ _ _ => decide (e.ans.ret ≠ MAP_FAILED)
  | _ => false

/-- The event is a call of `mmap`. -/
def Event.is_mmap (e : Event) : Bool :=
  match e.call with
  | .mmap _ _ _ => true
  | _ => false

/-- The event is a call of `munmap`. -/
def Event.is_munmap (e : Event) : Bool :=
  match e.call with
  | .munmap _ _ => true
  | _ => false

/-- The event is a call of `pthread_create`. -/
def Event.is_pthread_create (e : Event) : Bool :=
  match e.call with
  | .pthread_create => true
  | _ => false

/-- The event is a call of `open` on a device node. -/
def Event.is_sys_open (e : Event) : Bool :=
  match e.call with
  | .sys_open _ => true
  | _ => false

/-- Number of successful `mmap` calls so far. -/
def World.maps (w : World) : Nat := w.trace.countP Event.is_mmap_ok

/-- Number of `mmap` calls so far. -/
def World.map_calls (w : World) : Nat := w.trace.countP Event.is_mmap

/-- Number of `munmap` calls so far. -/
def World.unmaps (w : World) : Nat := w.trace.countP Event.is_munmap

/-- Number of `pthread_create` calls so far. -/
def World.threads (w : World) : Nat := w.trace.countP Event.is_pthread_create

/-- Number of `open` calls so far. -/
def World.opens (w : World) : Nat := w.trace.countP Event.is_sys_open

/-- The event is an enqueue request (`VIDIOC_QBUF`). -/
def Event.is_qbuf (e : Event) : Bool :=
  match e.call with
  | .ioctl _ (.VIDIOC_QBUF _) => true
  | _ => false

/-- The event is a dequeue request (`VIDIOC_DQBUF`). -/
def Event.is_dqbuf (e : Event) : Bool :=
  match e.call with
  | .ioctl _ (.VIDIOC_DQBUF _) => true
  | _ => false

/-- The event is a buffer query (`VIDIOC_QUERYBUF`). -/
def Event.is_querybuf (e : Event) : Bool :=
  match e.call with
  | .ioctl _ (.VIDIOC_QUERYBUF _) => true
  | _ => false

/-- Number of enqueue requests so far. -/
def World.qbufs (w : World) : Nat := w.trace.countP Event.is_qbuf

/-- Number of dequeue requests so far. -/
def World.dqbufs (w : World) : Nat := w.trace.countP Event.is_dqbuf

/-- Number of buffer queries so far. -/
def World.querybufs (w : World) : Nat := w.trace.countP Event.is_querybuf

/-- The request is an enqueue or a dequeue. -/
def Ioctl.is_queue (r : Ioctl) : Bool :=
  match r with
  | .VIDIOC_QBUF _ => true
  | .VIDIOC_DQBUF _ => true
  | _ => false

/-- The part of the state that no `ioctl` and no assignment of the negotiation touches. -/
structure Core where
  tvfd : Int
  retry : Int
  initialized : Bool
  continue_thread : Int
  frame : Nat
  last_frame : Nat
  frame_ready : Int
  only_new_frames : Int
  auto_open : Bool
  driver : Nat → Call → Answer
  exited : Bool
  threads : Nat
  opens : Nat
  unmaps : Nat

/-- The core of a state. -/
def Sys.core (s : Sys) : Core :=
  { tvfd := s.x.x_tvfd
    retry := s.x.x_open_retry
    initialized := s.x.x_initialized
    continue_thread := s.x.x_continue_thread
    frame := s.x.x_frame
    last_frame := s.x.x_last_frame
    frame_ready := s.x.x_frame_ready
    only_new_frames := s.x.x_only_new_frames
    auto_open := s.x.x_auto_open
    driver := s.w.driver
    exited := s.w.exited
    threads := s.w.threads
    opens := s.w.opens
    unmaps := s.w.unmaps }

/-- The buffer pool: what only `pdp_v4l2_init_mmap`, the capture thread and `munmap`
touch. -/
structure Pool where
  pdp_buf : Nat → Int
  v4l2_buf : Nat → V4l2Buffer
  queued : List Nat
  fault : Bool
  maps : Nat
  map_calls : Nat

/-- The buffer pool of a state. -/
def Sys.pool (s : Sys) : Pool :=
  { pdp_buf := s.x.x_pdp_buf
    v4l2_buf := s.x.x_v4l2_buf
    queued := s.w.queued
    fault := s.w.fault
    maps := s.w.maps
    map_calls := s.w.map_calls }

/-- The retry count did not grow from `s` to `t`, and did not fall below zero. -/
def RetryOK (s t : Sys) : Prop :=
  t.x.x_open_retry ≤ s.x.x_open_retry ∧ (0 ≤ s.x.x_open_retry → 0 ≤ t.x.x_open_retry)

/-- The property of the single in-flight buffer: exactly one of the two slots is enqueued to
the driver, and the other one is the slot named by `x_last_frame`. -/
def single_in_flight (s : Sys) : Prop :=
  (0 ∈ s.w.queued ∧ 1 ∉ s.w.queued ∧ s.x.x_last_frame = 1)
  ∨ (1 ∈ s.w.queued ∧ 0 ∉ s.w.queued ∧ s.x.x_last_frame = 0)

instance (s : Sys) : Decidable (single_in_flight s) := by
  unfold single_in_flight
  infer_instance

/-- A driver that never lets the capture thread down: every wait finds the device ready,
and streaming can be switched on, every dequeue and every enqueue succeeds. -/
structure Streaming (d : Nat → Call → Answer) : Prop where
  wait : ∀ n fd, 0 < (d n (.select fd)).ret
  dequeue : ∀ n fd i, (d n (.ioctl fd (.VIDIOC_DQBUF i))).ret ≠ -1
  enqueue : ∀ n fd i, (d n (.ioctl fd (.VIDIOC_QBUF i))).ret ≠ -1
  stream_on : ∀ n fd, (d n (.ioctl fd .VIDIOC_STREAMON)).ret ≠ -1

/-! ## Sample drivers and sequences of operations -/

/-- The pixel format tag of planar YUV 4:2:0, `v4l2_fourcc('Y','U','1','2')`. -/
def V4L2_PIX_FMT_YUV420 : Nat := 0x32315559

/-- The pixel format tag of packed YUYV, `v4l2_fourcc('Y','U','Y','V')`. -/
def V4L2_PIX_FMT_YUYV : Nat := 0x56595559

/-- A well-behaved camera: one input, no standard, one pixel format (planar YUV 4:2:0), no
control; it echoes the format it is asked for, grants the buffers it is asked for, each of
115200 bytes, and always has a frame ready. -/
def camera : Nat → Call → Answer
  | _, .sys_open _ => ⟨3, 0, 0, 0⟩
  | _, .ioctl _ (.VIDIOC_ENUMINPUT i) => if i = 0 then ⟨0, 0, 0, 0⟩ else ⟨-1, 22, 0, 0⟩
  | _, .ioctl _ (.VIDIOC_ENUMSTD _) => ⟨-1, 22, 0, 0⟩
  | _, .ioctl _ (.VIDIOC_ENUM_FMT i) =>
    if i = 0 then ⟨0, 0, V4L2_PIX_FMT_YUV420, 0⟩ else ⟨-1, 22, 0, 0⟩
  | _, .ioctl _ (.VIDIOC_QUERYCTRL _) => ⟨-1, 22, 0, 0⟩
  | _, .ioctl _ (.VIDIOC_S_FMT pf _ _) => ⟨0, 0, pf, 0⟩
  | _, .ioctl _ (.VIDIOC_REQBUFS n) => ⟨0, 0, n, 0⟩
  | _, .ioctl _ (.VIDIOC_QUERYBUF i) => ⟨0, 0, 115200, i * 115200⟩
  | _, .ioctl _ (.VIDIOC_DQBUF i) => ⟨0, 0, i, 0⟩
  | _, .mmap _ _ off => ⟨0x10000 + off, 0, 0, 0⟩
  | _, .select _ => ⟨1, 0, 0, 0⟩
  | _, _ => ⟨0, 0, 0, 0⟩

/-- A device node that can be opened but is no capture device: the capability query fails
(`ENOTTY`). -/
def not_a_capture_device : Nat → Call → Answer
  | _, .sys_open _ => ⟨3, 0, 0, 0⟩
  | _, .ioctl _ .VIDIOC_QUERYCAP => ⟨-1, 25, 0, 0⟩
  | _, _ => ⟨0, 0, 0, 0⟩

/-- No device node at all: `open` fails (`ENOENT`). -/
def no_device : Nat → Call → Answer
  | _, .sys_open _ => ⟨-1, 2, 0, 0⟩
  | _, _ => ⟨0, 0, 0, 0⟩

/-- The camera, short of memory: only the buffer at offset zero can be mapped (`ENOMEM`
for the others). -/
def camera_second_map_fails : Nat → Call → Answer
  | n, .mmap len fd off => if off = 0 then camera n (.mmap len fd off) else ⟨-1, 12, 0, 0⟩
  | n, c => camera n c

/-- The camera with a driver that accepts every format request but always switches to
packed YUYV. -/
def camera_substituting : Nat → Call → Answer
  | _, .ioctl _ (.VIDIOC_S_FMT _ _ _) => ⟨0, 0, V4L2_PIX_FMT_YUYV, 0⟩
  | n, c => camera n c

/-- The operations on the object, and one round of the capture thread. -/
inductive Cmd where
  | open_auto (name : String)
  | open_manual (name : String)
  | close
  | close_manual
  | close_error
  | input (f : Int)
  | standard (f : Int)
  | format (f : Int)
  | dim (xx yy : Int)
  | bang (header_ok : Bool)
  | free
  | thread_round

/-- The operation resets the retry count: it is `pdp_v4l2_open_manual` or
`pdp_v4l2_close_manual`. -/
def Cmd.is_manual : Cmd → Bool
  | .open_manual _ => true
  | .close_manual => true
  | _ => false

/-- One operation; nothing runs once the process has exited. -/
def exec (P : Imageproc) (s : Sys) (c : Cmd) : Sys :=
  if s.w.exited then s
  else
    match c with
    | .open_auto name => pdp_v4l2_open s name
    | .open_manual name => pdp_v4l2_open_manual s name
    | .close => pdp_v4l2_close s
    | .close_manual => pdp_v4l2_close_manual s
    | .close_error => pdp_v4l2_close_error s
    | .input f => pdp_v4l2_input s f
    | .standard f => pdp_v4l2_standard s f
    | .format f => pdp_v4l2_format s f
    | .dim xx yy => pdp_v4l2_dim P s xx yy
    | .bang header_ok => (pdp_v4l2_bang s header_ok).2
    | .free => pdp_v4l2_free s
    | .thread_round => (pdp_v4l2_thread_loop 1 s).2

/-- A sequence of operations. -/
def run (P : Imageproc) (s : Sys) (cs : List Cmd) : Sys := cs.foldl (exec P) s

/-- A freshly constructed object in front of the given driver: nothing called yet, nothing
enqueued. -/
def fresh (P : Imageproc) (vdef : String) (driver : Nat → Call → Answer) : Sys :=
  { x := pdp_v4l2_new P vdef
    w := { driver := driver, trace := [], queued := [], exited := false, fault := false } }

/-- The camera, opened from a fresh object, at the point where `pdp_v4l2_open` calls
`pdp_v4l2_init_mmap` (line 556). -/
def camera_before_mmap : Sys :=
  (open_format (open_negotiate
    (open_device (fresh sample_policy "" camera) "/dev/video0").state)).state

/-- The camera with a signal arriving during every wait: `select` fails with `EINTR`. -/
def camera_interrupted : Nat → Call → Answer
  | _, .select _ => ⟨-1, EINTR, 0, 0⟩
  | n, c => camera n c

/-- The camera, stalled: every wait runs into its timeout. -/
def camera_stalled : Nat → Call → Answer
  | _, .select _ => ⟨0, 0, 0, 0⟩
  | n, c => camera n c

/-- The camera with no frame to hand out: every dequeue is answered "try again". -/
def camera_try_again : Nat → Call → Answer
  | _, .ioctl _ (.VIDIOC_DQBUF _) => ⟨-1, EAGAIN, 0, 0⟩
  | n, c => camera n c

/-- The camera with a driver that grants `g` buffers whatever the number asked for. -/
def camera_grants (g : Nat) : Nat → Call → Answer
  | _, .ioctl _ (.VIDIOC_REQBUFS _) => ⟨0, 0, g, 0⟩
  | n, c => camera n c

/-- A TV card: one input, one standard (the driver reports the standard id `0xff`), two
pixel formats (planar YUV 4:2:0, then packed YUYV); otherwise the camera. -/
def tv_card : Nat → Call → Answer
  | _, .ioctl _ (.VIDIOC_ENUMSTD i) => if i = 0 then ⟨0, 0, 0, 0⟩ else ⟨-1, 22, 0, 0⟩
  | _, .ioctl _ .VIDIOC_G_STD => ⟨0, 0, 0xff, 0⟩
  | _, .ioctl _ (.VIDIOC_ENUM_FMT i) =>
    if i = 0 then ⟨0, 0, V4L2_PIX_FMT_YUV420, 0⟩
    else if i = 1 then ⟨0, 0, V4L2_PIX_FMT_YUYV, 0⟩
    else ⟨-1, 22, 0, 0⟩
  | n, c => camera n c

/-- The camera on a bad day: short of memory at first (only the buffer at offset zero can
be mapped), and from its hundredth call on a driver that accepts every format request
but switches to packed YUYV. -/
def camera_failing_twice : Nat → Call → Answer
  | n, .ioctl fd (.VIDIOC_S_FMT pf w h) =>
    if n < 100 then camera n (.ioctl fd (.VIDIOC_S_FMT pf w h))
    else ⟨0, 0, V4L2_PIX_FMT_YUYV, 0⟩
  | n, c => camera_second_map_fails n c

/-- The camera with a driver that refuses to switch streaming on (`EBUSY`). -/
def camera_no_streamon : Nat → Call → Answer
  | _, .ioctl _ .VIDIOC_STREAMON => ⟨-1, 16, 0, 0⟩
  | n, c => camera n c

/-- The camera with a driver that takes the buffers of the initial enqueue (within its
first 83 calls, the ones of the open) and refuses every enqueue after that (`EINVAL`). -/
def camera_no_requeue : Nat → Call → Answer
  | n, .ioctl fd (.VIDIOC_QBUF i) =>
    if n < 83 then camera n (.ioctl fd (.VIDIOC_QBUF i)) else ⟨-1, 22, 0, 0⟩
  | n, c => camera n c

/-- The state in which `pdp_v4l2_open`, called on a fresh object in front of the given
driver, calls `pdp_v4l2_init_mmap` (line 556). -/
def before_mmap (driver : Nat → Call → Answer) : Sys :=
  (open_format (open_negotiate
    (open_device (fresh sample_policy "" driver) "/dev/video0").state)).state

/-! ## Theorems -/

theorem u32_of_lt {n : Nat} (h : n < 2 ^ 31) : u32 n = n := by
  unfold u32; omega

theorem to_int_of_lt {n : Nat} (h : n < 2 ^ 31) : to_int n = (n : Int) := by
  unfold to_int
  have h1 : n % 2 ^ 32 = n := by omega
  rw [h1, if_pos h]

theorem clamp_stable (a lo hi : Nat) :
    (if (if (if (if a < hi then a else hi) > lo then (if a < hi then a else hi) else lo) < hi
          then (if (if a < hi then a else hi) > lo then (if a < hi then a else hi) else lo)
          else hi) > lo
      then (if (if (if a < hi then a else hi) > lo then (if a < hi then a else hi) else lo) < hi
          then (if (if a < hi then a else hi) > lo then (if a < hi then a else hi) else lo)
          else hi)
      else lo)
    = (if (if a < hi then a else hi) > lo then (if a < hi then a else hi) else lo) := by
  split_ifs <;> omega

theorem clamp_cases (a lo hi : Nat) :
    (if (if a < hi then a else hi) > lo then (if a < hi then a else hi) else lo) = a
    ∨ (if (if a < hi then a else hi) > lo then (if a < hi then a else hi) else lo) = hi
    ∨ (if (if a < hi then a else hi) > lo then (if a < hi then a else hi) else lo) = lo := by
  split_ifs <;> simp

/-! ### Preservation lemmas -/

@[simp] theorem log_driver (w : World) (c : Call) : (w.log c).driver = w.driver := rfl

@[simp] theorem log_exited (w : World) (c : Call) : (w.log c).exited = w.exited := rfl

@[simp] theorem log_fault (w : World) (c : Call) : (w.log c).fault = w.fault := rfl

@[simp] theorem log_trace (w : World) (c : Call) :
    (w.log c).trace = ⟨c, w.answer c⟩ :: w.trace := rfl

@[simp] theorem ioctl_x (s : Sys) (r : Ioctl) : (s.ioctl r).2.x = s.x := rfl

@[simp] theorem ioctl_w (s : Sys) (r : Ioctl) :
    (s.ioctl r).2.w = s.w.log (.ioctl s.x.x_tvfd r) := rfl

@[simp] theorem ioctl_ans (s : Sys) (r : Ioctl) :
    (s.ioctl r).1 = s.w.answer (.ioctl s.x.x_tvfd r) := rfl

theorem core_ioctl (s : Sys) (r : Ioctl) : (s.ioctl r).2.core = s.core := by
  simp [Sys.core, World.threads, World.opens, World.unmaps, Event.is_pthread_create,
    Event.is_sys_open, Event.is_munmap]

theorem pool_ioctl (s : Sys) (r : Ioctl) (h : r.is_queue = false) :
    (s.ioctl r).2.pool = s.pool := by
  cases r <;> simp_all [Sys.pool, World.maps, World.map_calls, Event.is_mmap_ok, Event.is_mmap,
    World.log, Ioctl.is_queue]

theorem core_enum_inputs_from (fuel : Nat) (s : Sys) : (open_enum_inputs_from fuel s).core = s.core := by
  induction fuel generalizing s with
  | zero => rfl
  | succ n ih =>
    simp only [open_enum_inputs_from]
    split_ifs
    · exact core_ioctl s _
    · rw [ih]; exact core_ioctl s _
    · rfl

theorem pool_enum_inputs_from (fuel : Nat) (s : Sys) : (open_enum_inputs_from fuel s).pool = s.pool := by
  induction fuel generalizing s with
  | zero => rfl
  | succ n ih =>
    simp only [open_enum_inputs_from]
    split_ifs
    · exact pool_ioctl s _ rfl
    · rw [ih]; exact pool_ioctl s _ rfl
    · rfl

theorem core_enum_standards_from (fuel : Nat) (s : Sys) :
    (open_enum_standards_from fuel s).core = s.core := by
  induction fuel generalizing s with
  | zero => rfl
  | succ n ih =>
    simp only [open_enum_standards_from]
    split_ifs
    · exact core_ioctl s _
    · rw [ih]; exact core_ioctl s _
    · rfl

theorem pool_enum_standards_from (fuel : Nat) (s : Sys) :
    (open_enum_standards_from fuel s).pool = s.pool := by
  induction fuel generalizing s with
  | zero => rfl
  | succ n ih =>
    simp only [open_enum_standards_from]
    split_ifs
    · exact pool_ioctl s _ rfl
    · rw [ih]; exact pool_ioctl s _ rfl
    · rfl

theorem core_enum_formats_from (fuel : Nat) (s : Sys) : (open_enum_formats_from fuel s).core = s.core := by
  induction fuel generalizing s with
  | zero => rfl
  | succ n ih =>
    simp only [open_enum_formats_from]
    split_ifs
    · exact core_ioctl s _
    · rw [ih]; exact core_ioctl s _
    · rfl

theorem pool_enum_formats_from (fuel : Nat) (s : Sys) : (open_enum_formats_from fuel s).pool = s.pool := by
  induction fuel generalizing s with
  | zero => rfl
  | succ n ih =>
    simp only [open_enum_formats_from]
    split_ifs
    · exact pool_ioctl s _ rfl
    · rw [ih]; exact pool_ioctl s _ rfl
    · rfl

theorem core_select_input (s : Sys) : (open_select_input s).core = s.core := by
  simp only [open_select_input]
  split_ifs <;> rfl

theorem pool_select_input (s : Sys) : (open_select_input s).pool = s.pool := by
  simp only [open_select_input]
  split_ifs <;> rfl

theorem core_select_standard (s : Sys) : (open_select_standard s).core = s.core := by
  simp only [open_select_standard]
  split_ifs <;> rfl

theorem pool_select_standard (s : Sys) : (open_select_standard s).pool = s.pool := by
  simp only [open_select_standard]
  split_ifs <;> rfl

theorem core_set_freq (s : Sys) : (open_set_freq s).core = s.core := by
  simp only [open_set_freq]
  split_ifs
  · exact core_ioctl s _
  · rfl

theorem pool_set_freq (s : Sys) : (open_set_freq s).pool = s.pool := by
  simp only [open_set_freq]
  split_ifs
  · exact pool_ioctl s _ rfl
  · rfl

theorem core_query_control (base off : Nat) (s : Sys) (i : Nat) :
    (open_query_control base off s i).core = s.core := by
  simp only [open_query_control]
  split_ifs <;> exact core_ioctl s _

theorem pool_query_control (base off : Nat) (s : Sys) (i : Nat) :
    (open_query_control base off s i).pool = s.pool := by
  simp only [open_query_control]
  split_ifs <;> exact pool_ioctl s _ rfl

theorem core_query_controls (base off : Nat) (l : List Nat) (s : Sys) :
    (l.foldl (open_query_control base off) s).core = s.core := by
  induction l generalizing s with
  | nil => rfl
  | cons i l ih => rw [List.foldl_cons, ih, core_query_control]

theorem pool_query_controls (base off : Nat) (l : List Nat) (s : Sys) :
    (l.foldl (open_query_control base off) s).pool = s.pool := by
  induction l generalizing s with
  | nil => rfl
  | cons i l ih => rw [List.foldl_cons, ih, pool_query_control]

theorem core_enum_inputs (s : Sys) : (open_enum_inputs s).core = s.core :=
  (core_enum_inputs_from _ _).trans rfl

theorem pool_enum_inputs (s : Sys) : (open_enum_inputs s).pool = s.pool :=
  (pool_enum_inputs_from _ _).trans rfl

theorem core_enum_standards (s : Sys) : (open_enum_standards s).core = s.core :=
  (core_enum_standards_from _ _).trans rfl

theorem pool_enum_standards (s : Sys) : (open_enum_standards s).pool = s.pool :=
  (pool_enum_standards_from _ _).trans rfl

theorem core_enum_formats (s : Sys) : (open_enum_formats s).core = s.core :=
  (core_enum_formats_from _ _).trans rfl

theorem pool_enum_formats (s : Sys) : (open_enum_formats s).pool = s.pool :=
  (pool_enum_formats_from _ _).trans rfl

theorem core_get_parm (s : Sys) : (open_get_parm s).core = s.core := core_ioctl s _

theorem pool_get_parm (s : Sys) : (open_get_parm s).pool = s.pool := pool_ioctl s _ rfl

theorem core_negotiate (s : Sys) : (open_negotiate s).core = s.core := by
  simp only [open_negotiate, open_query_controls, core_query_controls, core_get_parm,
    core_enum_formats, core_set_freq, core_select_standard, core_enum_standards,
    core_select_input, core_enum_inputs]

theorem pool_negotiate (s : Sys) : (open_negotiate s).pool = s.pool := by
  simp only [open_negotiate, open_query_controls, pool_query_controls, pool_get_parm,
    pool_enum_formats, pool_set_freq, pool_select_standard, pool_enum_standards,
    pool_select_input, pool_enum_inputs]

/-- What `pdp_v4l2_close` does to the object. -/
theorem close_x (s : Sys) :
    (pdp_v4l2_close s).x =
      { s.x with
        x_continue_thread := 0
        x_tvfd := if s.x.x_tvfd ≥ 0 then -1 else s.x.x_tvfd
        x_initialized := false } := by
  obtain ⟨x, w⟩ := s
  obtain ⟨a1, a2, a3, a4, a5, a6, a7, a8, a9, a10, a11, a12, a13, a14, a15, a16, a17, a18, a19,
    a20, a21, a22, a23, a24, a25, a26, a27, a28, a29⟩ := x
  simp only [pdp_v4l2_close]
  split_ifs <;> simp_all

theorem close_driver (s : Sys) : (pdp_v4l2_close s).w.driver = s.w.driver := by
  simp only [pdp_v4l2_close]
  split_ifs <;> simp [WANTED_BUFFERS, List.range_succ, List.range_zero]

theorem close_exited (s : Sys) : (pdp_v4l2_close s).w.exited = s.w.exited := by
  simp only [pdp_v4l2_close]
  split_ifs <;> simp [WANTED_BUFFERS, List.range_succ, List.range_zero]

theorem close_pool (s : Sys) : (pdp_v4l2_close s).pool = s.pool := by
  simp only [pdp_v4l2_close]
  split_ifs <;> simp [Sys.pool, World.maps, World.map_calls, Event.is_mmap_ok, Event.is_mmap,
    World.log, WANTED_BUFFERS, List.range_succ, List.range_zero]

theorem close_threads (s : Sys) : (pdp_v4l2_close s).w.threads = s.w.threads := by
  simp only [pdp_v4l2_close]
  split_ifs <;> simp [World.threads, Event.is_pthread_create,
    World.log, WANTED_BUFFERS, List.range_succ, List.range_zero]

theorem close_opens (s : Sys) : (pdp_v4l2_close s).w.opens = s.w.opens := by
  simp only [pdp_v4l2_close]
  split_ifs <;> simp [World.opens, Event.is_sys_open,
    World.log, WANTED_BUFFERS, List.range_succ, List.range_zero]

theorem close_unmaps (s : Sys) :
    (pdp_v4l2_close s).w.unmaps = s.w.unmaps + (if s.x.x_initialized then WANTED_BUFFERS else 0) := by
  simp only [pdp_v4l2_close]
  split_ifs <;> simp_all [World.unmaps, Event.is_munmap,
    World.log, WANTED_BUFFERS, List.range_succ, List.range_zero]

theorem close_core (s : Sys) :
    (pdp_v4l2_close s).core =
      { s.core with
        continue_thread := 0
        tvfd := if s.x.x_tvfd ≥ 0 then -1 else s.x.x_tvfd
        initialized := false
        unmaps := s.w.unmaps + (if s.x.x_initialized then WANTED_BUFFERS else 0) } := by
  simp only [Sys.core, close_x, close_driver, close_exited, close_threads, close_opens,
    close_unmaps]

theorem close_error_x (s : Sys) :
    (pdp_v4l2_close_error s).x =
      { s.x with
        x_continue_thread := 0
        x_tvfd := if s.x.x_tvfd ≥ 0 then -1 else s.x.x_tvfd
        x_initialized := false
        x_open_retry := if s.x.x_open_retry ≠ 0 then s.x.x_open_retry - 1 else s.x.x_open_retry } := by
  have hx := close_x s
  simp only [pdp_v4l2_close_error]
  split_ifs with h1 h2 h2 <;> simp_all

theorem close_error_w (s : Sys) : (pdp_v4l2_close_error s).w = (pdp_v4l2_close s).w := by
  simp only [pdp_v4l2_close_error]
  split_ifs <;> rfl

theorem core_set_format (s : Sys) (index : Nat) :
    (pdp_v4l2_set_format s index).2.core = s.core := by
  simp only [pdp_v4l2_set_format]
  split_ifs <;> exact core_ioctl _ _

theorem pool_set_format (s : Sys) (index : Nat) :
    (pdp_v4l2_set_format s index).2.pool = s.pool := by
  simp only [pdp_v4l2_set_format]
  split_ifs <;> exact pool_ioctl _ _ rfl

theorem core_set_buf (s : Sys) (i : Nat) (f : V4l2Buffer → V4l2Buffer) :
    (s.set_buf i f).core = s.core := by
  simp only [Sys.set_buf]
  split_ifs <;> rfl

theorem core_set_pdp_buf (s : Sys) (i : Nat) (a : Int) : (s.set_pdp_buf i a).core = s.core := by
  simp only [Sys.set_pdp_buf]
  split_ifs <;> rfl

theorem core_init_mmap_map (fuel i : Nat) (s : Sys) : (init_mmap_map fuel i s).2.core = s.core := by
  induction fuel generalizing i s with
  | zero => rfl
  | succ n ih =>
    simp only [init_mmap_map]
    split_ifs
    · rw [core_ioctl, core_set_buf]
    · rw [core_set_pdp_buf]
      exact (core_set_buf _ _ _).trans ((core_ioctl _ _).trans (core_set_buf _ _ _))
    · rw [ih, core_set_pdp_buf]
      exact (core_set_buf _ _ _).trans ((core_ioctl _ _).trans (core_set_buf _ _ _))
    · rfl

theorem core_init_mmap_queue (fuel i : Nat) (s : Sys) :
    (init_mmap_queue fuel i s).2.core = s.core := by
  induction fuel generalizing i s with
  | zero => rfl
  | succ n ih =>
    simp only [init_mmap_queue]
    split_ifs
    · rw [core_ioctl, core_set_buf]
    · rw [ih, core_ioctl, core_set_buf]
    · rfl

theorem core_init_mmap (s : Sys) : (pdp_v4l2_init_mmap s).2.core = s.core := by
  simp only [pdp_v4l2_init_mmap]
  split_ifs
  · exact core_ioctl _ _
  · rw [core_init_mmap_map]; exact core_ioctl _ _
  · rw [core_init_mmap_queue, core_init_mmap_map]; exact core_ioctl _ _

/-! ### The retry count -/

theorem RetryOK.refl (s : Sys) : RetryOK s s := ⟨le_refl _, fun h => h⟩

theorem RetryOK.trans {s t u : Sys} (h1 : RetryOK s t) (h2 : RetryOK t u) : RetryOK s u :=
  ⟨le_trans h2.1 h1.1, fun h => h2.2 (h1.2 h)⟩

theorem RetryOK.of_eq {s t : Sys} (h : t.x.x_open_retry = s.x.x_open_retry) : RetryOK s t :=
  ⟨le_of_eq h, fun h0 => h ▸ h0⟩

theorem RetryOK.of_core {s t : Sys} (h : t.core = s.core) : RetryOK s t :=
  RetryOK.of_eq (congrArg Core.retry h)

theorem retry_close (s : Sys) : RetryOK s (pdp_v4l2_close s) :=
  RetryOK.of_eq (by rw [close_x])

theorem retry_close_error (s : Sys) : RetryOK s (pdp_v4l2_close_error s) := by
  unfold RetryOK
  rw [close_error_x]
  constructor
  · show (if s.x.x_open_retry ≠ 0 then s.x.x_open_retry - 1 else s.x.x_open_retry) ≤ _
    split_ifs <;> omega
  · intro h
    show 0 ≤ (if s.x.x_open_retry ≠ 0 then s.x.x_open_retry - 1 else s.x.x_open_retry)
    split_ifs <;> omega

theorem retry_close_error_uninit (s : Sys) :
    RetryOK s { pdp_v4l2_close_error s with x.x_initialized := false } :=
  (retry_close_error s).trans (RetryOK.of_eq rfl)

theorem retry_open_node (t : Sys) (name : String) : RetryOK t (open_node t name).state := by
  simp only [open_node]
  split_ifs
  · exact RetryOK.refl t
  · exact (RetryOK.of_eq (s := t) rfl).trans (retry_close_error_uninit _)
  · exact RetryOK.of_eq rfl
  · exact RetryOK.of_eq rfl

theorem retry_open_device (s : Sys) (name : String) : RetryOK s (open_device s name).state := by
  have hc : RetryOK s (if s.x.x_initialized then pdp_v4l2_close s else s) := by
    split_ifs
    · exact retry_close s
    · exact RetryOK.refl s
  exact hc.trans (retry_open_node _ name)

theorem retry_open_format (s : Sys) : RetryOK s (open_format s).state := by
  have hc : (open_clamp_format s).x.x_open_retry = s.x.x_open_retry := by
    simp only [open_clamp_format]; split_ifs <;> rfl
  simp only [open_format]
  split_ifs
  · exact ((RetryOK.of_eq hc).trans (RetryOK.of_core (core_set_format _ _))).trans
      (retry_close_error_uninit _)
  · exact (RetryOK.of_eq hc).trans (RetryOK.of_core (core_set_format _ _))
  · exact retry_close_error_uninit _

theorem retry_open_stream (s : Sys) : RetryOK s (open_stream s) := by
  simp only [open_stream]
  split_ifs
  · exact (RetryOK.of_core (core_init_mmap s)).trans (retry_close_error_uninit _)
  · exact (RetryOK.of_core (core_init_mmap s)).trans (RetryOK.of_eq rfl)

theorem retry_open (s : Sys) (name : String) : RetryOK s (pdp_v4l2_open s name) := by
  have h1 := retry_open_device s name
  cases hd : open_device s name with
  | returned t =>
    rw [hd] at h1
    simp only [pdp_v4l2_open, hd]
    exact h1
  | goes_on t =>
    rw [hd] at h1
    have h1' : RetryOK s t := h1
    have h2 := retry_open_format (open_negotiate t)
    have h3 : RetryOK t (open_negotiate t) := RetryOK.of_core (core_negotiate t)
    cases hf : open_format (open_negotiate t) with
    | returned u =>
      rw [hf] at h2
      have h2' : RetryOK (open_negotiate t) u := h2
      simp only [pdp_v4l2_open, hd, hf]
      exact RetryOK.trans (RetryOK.trans h1' h3) h2'
    | goes_on u =>
      rw [hf] at h2
      have h2' : RetryOK (open_negotiate t) u := h2
      simp only [pdp_v4l2_open, hd, hf]
      exact RetryOK.trans (RetryOK.trans (RetryOK.trans h1' h3) h2') (retry_open_stream u)

theorem retry_input (s : Sys) (f : Int) : RetryOK s (pdp_v4l2_input s f) := by
  simp only [pdp_v4l2_input]
  split_ifs <;> first
    | exact RetryOK.refl s
    | exact ((retry_close s).trans (RetryOK.of_eq rfl)).trans (retry_open _ _)

theorem retry_standard (s : Sys) (f : Int) : RetryOK s (pdp_v4l2_standard s f) := by
  simp only [pdp_v4l2_standard]
  split_ifs <;> first
    | exact RetryOK.refl s
    | exact ((retry_close s).trans (RetryOK.of_eq rfl)).trans (retry_open _ _)

theorem retry_format (s : Sys) (f : Int) : RetryOK s (pdp_v4l2_format s f) := by
  simp only [pdp_v4l2_format]
  split_ifs <;> first
    | exact RetryOK.refl s
    | exact ((retry_close s).trans (RetryOK.of_eq rfl)).trans (retry_open _ _)

theorem retry_dim (P : Imageproc) (s : Sys) (xx yy : Int) : RetryOK s (pdp_v4l2_dim P s xx yy) := by
  simp only [pdp_v4l2_dim]
  split_ifs <;> first
    | exact RetryOK.refl s
    | exact ((retry_close s).trans (RetryOK.of_eq rfl)).trans (retry_open _ _)

theorem retry_bang_frame (s : Sys) (header_ok : Bool) : RetryOK s (bang_frame s header_ok).2 := by
  simp only [bang_frame]
  split_ifs <;> exact RetryOK.refl s

theorem retry_bang (s : Sys) (header_ok : Bool) : RetryOK s (pdp_v4l2_bang s header_ok).2 := by
  simp only [pdp_v4l2_bang]
  split_ifs <;> first
    | exact RetryOK.refl s
    | exact retry_open _ _
    | exact retry_bang_frame _ _
    | exact (retry_open _ _).trans (retry_bang_frame _ _)

theorem capture_frame_x (s : Sys) :
    (pdp_v4l2_capture_frame s).2.x.x_open_retry = s.x.x_open_retry
    ∧ (pdp_v4l2_capture_frame s).2.x.x_tvfd = s.x.x_tvfd
    ∧ (pdp_v4l2_capture_frame s).2.x.x_continue_thread = s.x.x_continue_thread
    ∧ (pdp_v4l2_capture_frame s).2.x.x_initialized = s.x.x_initialized
    ∧ (pdp_v4l2_capture_frame s).2.x.x_frame = s.x.x_frame
    ∧ (pdp_v4l2_capture_frame s).2.w.driver = s.w.driver := by
  simp only [pdp_v4l2_capture_frame, Sys.set_buf, Sys.exit]
  split_ifs <;> simp

theorem wait_frame_retry (s : Sys) :
    (pdp_v4l2_wait_frame s).x.x_open_retry = s.x.x_open_retry := by
  simp only [pdp_v4l2_wait_frame]
  split_ifs <;> simp [close_x]

theorem retry_thread_body (s : Sys) : RetryOK s (pdp_v4l2_thread_body s) := by
  apply RetryOK.of_eq
  simp only [pdp_v4l2_thread_body]
  split_ifs
  · rw [(capture_frame_x _).1]; exact wait_frame_retry s
  · show (pdp_v4l2_capture_frame _).2.x.x_open_retry = _
    rw [(capture_frame_x _).1]; exact wait_frame_retry s

theorem retry_exec (P : Imageproc) (s : Sys) (c : Cmd) (h : c.is_manual = false) :
    RetryOK s (exec P s c) := by
  simp only [exec]
  split_ifs
  · exact RetryOK.refl s
  · cases c with
    | open_auto name => exact retry_open s name
    | open_manual name => simp [Cmd.is_manual] at h
    | close => exact retry_close s
    | close_manual => simp [Cmd.is_manual] at h
    | close_error => exact retry_close_error s
    | input f => exact retry_input s f
    | standard f => exact retry_standard s f
    | format f => exact retry_format s f
    | dim xx yy => exact retry_dim P s xx yy
    | bang ok => exact retry_bang s ok
    | free => exact retry_close s
    | thread_round =>
      show RetryOK s (pdp_v4l2_thread_loop 1 s).2
      simp only [pdp_v4l2_thread_loop]
      split_ifs <;> first | exact RetryOK.refl s | exact retry_thread_body s

theorem retry_run (P : Imageproc) (cs : List Cmd) (s : Sys)
    (h : ∀ c ∈ cs, c.is_manual = false) : RetryOK s (run P s cs) := by
  induction cs generalizing s with
  | nil => exact RetryOK.refl s
  | cons c cs ih =>
    have h1 := retry_exec P s c (h c (List.mem_cons_self _ _))
    have h2 := ih (exec P s c) (fun d hd => h d (List.mem_cons_of_mem _ hd))
    exact h1.trans h2

/-! ### Opening -/

theorem set_format_fails (s : Sys) (index : Nat)
    (h : (set_format_answer s index).ret = -1
      ∨ (set_format_answer s index).val ≠ s.x.x_formats index) :
    (pdp_v4l2_set_format s index).1 = -1 := by
  simp only [pdp_v4l2_set_format, set_format_answer, ioctl_ans, ioctl_x] at h ⊢
  split_ifs with h1 h2
  · rfl
  · rfl
  · rcases h with h | h
    · exact absurd h h1
    · exact absurd (not_not.mp h2) h

theorem set_format_succeeds (s : Sys) (index : Nat)
    (h1 : (set_format_answer s index).ret ≠ -1)
    (h2 : (set_format_answer s index).val = s.x.x_formats index) :
    (pdp_v4l2_set_format s index).1 = 0 := by
  simp only [pdp_v4l2_set_format, set_format_answer, ioctl_ans, ioctl_x] at h1 h2 ⊢
  rw [if_neg h1, if_neg (not_not.mpr h2)]

theorem open_node_goes_on {t t1 : Sys} {name : String} (h : open_node t name = .goes_on t1) :
    0 ≤ t1.x.x_tvfd ∧ t1.pool = t.pool ∧ t1.w.threads = t.w.threads
    ∧ t1.x.x_initialized = t.x.x_initialized ∧ t1.w.unmaps = t.w.unmaps
    ∧ t1.x.x_open_retry = t.x.x_open_retry ∧ t1.x.x_open_retry ≠ 0
    ∧ t1.w.opens = t.w.opens + 1 := by
  simp only [open_node] at h
  split_ifs at h with h1 h2 h3
  simp only [Flow.goes_on.injEq] at h
  subst h
  refine ⟨by simpa using h2, ?_, ?_, rfl, ?_, rfl, h1, ?_⟩
  · simp [Sys.pool, World.maps, World.map_calls, Event.is_mmap_ok, Event.is_mmap, World.log]
  · simp [World.threads, Event.is_pthread_create]
  · simp [World.unmaps, Event.is_munmap]
  · simp [World.opens, Event.is_sys_open]

theorem clamp_format_core (s : Sys) : (open_clamp_format s).core = s.core := by
  simp only [open_clamp_format]
  split_ifs <;> rfl

theorem clamp_format_pool (s : Sys) : (open_clamp_format s).pool = s.pool := by
  simp only [open_clamp_format]
  split_ifs <;> rfl

theorem open_device_goes_on {t t1 : Sys} {name : String} (h : open_device t name = .goes_on t1) :
    0 ≤ t1.x.x_tvfd ∧ t1.pool = t.pool ∧ t1.w.threads = t.w.threads
    ∧ t1.x.x_initialized = false
    ∧ t1.w.unmaps = t.w.unmaps + (if t.x.x_initialized then WANTED_BUFFERS else 0) := by
  obtain ⟨h1, h2, h3, h4, h5, -, -, -⟩ := open_node_goes_on h
  refine ⟨h1, ?_, ?_, ?_, ?_⟩
  · rw [h2]; split_ifs
    · exact close_pool t
    · rfl
  · rw [h3]; split_ifs
    · exact close_threads t
    · rfl
  · rw [h4]; split_ifs with hi
    · rw [close_x]
    · simpa using hi
  · rw [h5]; split_ifs with hi
    · rw [close_unmaps, if_pos hi]
    · rfl

/-- What a failed open leaves behind when it unwinds through `pdp_v4l2_close_error`. -/
theorem close_error_unwinds (s : Sys) (hfd : 0 ≤ s.x.x_tvfd) :
    ({ pdp_v4l2_close_error s with x.x_initialized := false } : Sys).x.x_initialized = false
    ∧ ({ pdp_v4l2_close_error s with x.x_initialized := false } : Sys).x.x_tvfd = -1
    ∧ ({ pdp_v4l2_close_error s with x.x_initialized := false } : Sys).x.x_continue_thread = 0
    ∧ ({ pdp_v4l2_close_error s with x.x_initialized := false } : Sys).w.map_calls = s.w.map_calls
    ∧ ({ pdp_v4l2_close_error s with x.x_initialized := false } : Sys).w.threads = s.w.threads
    ∧ ({ pdp_v4l2_close_error s with x.x_initialized := false } : Sys).w.unmaps
        = s.w.unmaps + (if s.x.x_initialized then WANTED_BUFFERS else 0) := by
  refine ⟨rfl, ?_, ?_, ?_, ?_, ?_⟩
  · show (pdp_v4l2_close_error s).x.x_tvfd = -1
    rw [close_error_x]
    show (if s.x.x_tvfd ≥ 0 then (-1 : Int) else s.x.x_tvfd) = -1
    rw [if_pos hfd]
  · show (pdp_v4l2_close_error s).x.x_continue_thread = 0
    rw [close_error_x]
  · show (pdp_v4l2_close_error s).w.map_calls = _
    rw [close_error_w]
    exact congrArg Pool.map_calls (close_pool s)
  · show (pdp_v4l2_close_error s).w.threads = _
    rw [close_error_w]
    exact close_threads s
  · show (pdp_v4l2_close_error s).w.unmaps = _
    rw [close_error_w]
    exact close_unmaps s


theorem opens_close_error_uninit (s : Sys) :
    ({ pdp_v4l2_close_error s with x.x_initialized := false } : Sys).w.opens = s.w.opens := by
  show (pdp_v4l2_close_error s).w.opens = _
  rw [close_error_w, close_opens]

theorem opens_of_core {s t : Sys} (h : t.core = s.core) : t.w.opens = s.w.opens :=
  congrArg Core.opens h

theorem opens_open_format (s : Sys) : (open_format s).state.w.opens = s.w.opens := by
  have h1 : (pdp_v4l2_set_format (open_clamp_format s)
      (open_clamp_format s).x.x_curformat.toNat).2.w.opens = s.w.opens :=
    (opens_of_core (core_set_format _ _)).trans (opens_of_core (clamp_format_core s))
  simp only [open_format]
  split_ifs
  · exact (opens_close_error_uninit _).trans h1
  · exact h1
  · exact opens_close_error_uninit _

theorem opens_open_stream (s : Sys) : (open_stream s).w.opens = s.w.opens := by
  simp only [open_stream]
  split_ifs
  · exact (opens_close_error_uninit _).trans (opens_of_core (core_init_mmap s))
  · show (World.log _ _).opens = _
    simp only [World.opens, log_trace, List.countP_cons, Event.is_sys_open]
    exact opens_of_core (core_init_mmap s)

theorem opens_open_node (u : Sys) (name : String) (hu : u.x.x_open_retry ≠ 0) :
    (open_node u name).state.w.opens = u.w.opens + 1 := by
  simp only [open_node, if_neg hu]
  split_ifs
  · refine (opens_close_error_uninit _).trans ?_
    simp [World.opens, Event.is_sys_open]
  · simp [Flow.state, World.opens, Event.is_sys_open]
  · simp [Flow.state, World.opens, Event.is_sys_open]

/-- With no retry left and nothing opened, the automatic open returns at once: the state,
its trace included, is the one it was called with. -/
theorem open_exhausted (s : Sys) (name : String) (hi : s.x.x_initialized = false)
    (hr : s.x.x_open_retry = 0) : pdp_v4l2_open s name = s := by
  have h1 : open_device s name = .returned s := by
    unfold open_device
    rw [hi]
    simp only [Bool.false_eq_true, if_false]
    unfold open_node
    rw [if_pos hr]
  simp only [pdp_v4l2_open, h1]

/-- An automatic open with retries left reaches the device node: it issues one `open`. -/
theorem open_attempts (t : Sys) (name : String) (ht : t.x.x_open_retry ≠ 0) :
    (pdp_v4l2_open t name).w.opens = t.w.opens + 1 := by
  have hpre : (if t.x.x_initialized then pdp_v4l2_close t else t).x.x_open_retry ≠ 0 ∧
      (if t.x.x_initialized then pdp_v4l2_close t else t).w.opens = t.w.opens := by
    split_ifs
    · exact ⟨by rw [close_x]; exact ht, close_opens t⟩
    · exact ⟨ht, rfl⟩
  have hdev : (open_device t name).state.w.opens = t.w.opens + 1 := by
    rw [open_device, opens_open_node _ _ hpre.1, hpre.2]
  cases hd : open_device t name with
  | returned u =>
    rw [hd] at hdev
    simp only [pdp_v4l2_open, hd]
    exact hdev
  | goes_on u =>
    rw [hd] at hdev
    have hdev' : u.w.opens = t.w.opens + 1 := hdev
    have hneg : (open_negotiate u).w.opens = u.w.opens := opens_of_core (core_negotiate u)
    have hfmt := opens_open_format (open_negotiate u)
    cases hf : open_format (open_negotiate u) with
    | returned v =>
      rw [hf] at hfmt
      have hfmt' : v.w.opens = (open_negotiate u).w.opens := hfmt
      simp only [pdp_v4l2_open, hd, hf]
      rw [hfmt', hneg, hdev']
    | goes_on v =>
      rw [hf] at hfmt
      have hfmt' : v.w.opens = (open_negotiate u).w.opens := hfmt
      simp only [pdp_v4l2_open, hd, hf]
      rw [opens_open_stream, hfmt', hneg, hdev']

/-- A manual open always reaches the device node: it issues one more `open`. -/
theorem open_manual_attempts (s : Sys) (name : String) :
    (pdp_v4l2_open_manual s name).w.opens = s.w.opens + 1 :=
  open_attempts _ name (by simp [PDP_XV_RETRIES])

/-! ### Polling -/

theorem bang_of_initialized (s : Sys) (ok : Bool) (h : s.x.x_initialized = true) :
    pdp_v4l2_bang s ok = bang_frame s ok := by
  simp only [pdp_v4l2_bang, h]
  simp

theorem bang_frame_nothing (s : Sys) (ok : Bool) (h0 : s.x.x_frame_ready = 0)
    (h1 : s.x.x_only_new_frames ≠ 0) : bang_frame s ok = (none, s) := by
  simp only [bang_frame]
  rw [if_pos ⟨h0, h1⟩]

theorem bang_frame_only_new (s : Sys) (ok : Bool) :
    (bang_frame s ok).2.x.x_frame_ready = 0
    ∧ (bang_frame s ok).2.x.x_initialized = s.x.x_initialized
    ∧ (bang_frame s ok).2.x.x_only_new_frames = s.x.x_only_new_frames := by
  simp only [bang_frame]
  split_ifs with h2 h3
  · exact ⟨h2.1, rfl, rfl⟩
  · exact ⟨rfl, rfl, rfl⟩
  · exact ⟨rfl, rfl, rfl⟩

theorem bang_frame_always (s : Sys) (ok : Bool) (h : s.x.x_only_new_frames = 0) :
    bang_frame s ok
      = (if ok then some ⟨s.x.x_last_frame, s.x.x_pdp_buf s.x.x_last_frame,
            s.x.x_v4l2_format_pixelformat, s.x.x_width, s.x.x_height⟩ else none,
          { s with x.x_frame_ready := 0 }) := by
  simp only [bang_frame]
  rw [if_neg (fun hc => hc.2 h)]
  cases ok <;> rfl

/-! ### The queue of the driver -/

theorem xor_one_lt_two {f : Nat} (h : f < 2) : f ^^^ 0x1 < 2 := by
  interval_cases f <;> decide

theorem log_queued_other (w : World) (c : Call)
    (h : ∀ fd r, c = .ioctl fd r → r.is_queue = false) : (w.log c).queued = w.queued := by
  cases c with
  | ioctl fd r =>
    have := h fd r rfl
    cases r <;> simp_all [World.log, Ioctl.is_queue]
  | _ => rfl

theorem mem_requeue {q : List Nat} {j : Nat} (d : Nat) (h : j ∈ q) :
    j ∈ (if d ∈ q.erase d then q.erase d else d :: q.erase d) := by
  by_cases hj : j = d
  · subst hj
    split_ifs with h1
    · exact h1
    · exact List.mem_cons_self _ _
  · have : j ∈ q.erase d := (List.mem_erase_of_ne hj).mpr h
    split_ifs
    · exact this
    · exact List.mem_cons_of_mem _ this

theorem log_qbuf_ok (w : World) (fd : Int) (i : Nat)
    (h : (w.answer (.ioctl fd (.VIDIOC_QBUF i))).ret ≠ -1) :
    i ∈ (w.log (.ioctl fd (.VIDIOC_QBUF i))).queued
    ∧ ∀ j ∈ w.queued, j ∈ (w.log (.ioctl fd (.VIDIOC_QBUF i))).queued := by
  simp only [World.log, if_neg h]
  constructor
  · split_ifs with h1
    · exact h1
    · exact List.mem_cons_self _ _
  · intro j hj
    split_ifs
    · exact hj
    · exact List.mem_cons_of_mem _ hj

theorem close_queued (s : Sys) : (pdp_v4l2_close s).w.queued = s.w.queued :=
  congrArg Pool.queued (close_pool s)

theorem wait_frame_keeps (s : Sys) :
    (pdp_v4l2_wait_frame s).w.queued = s.w.queued
    ∧ (pdp_v4l2_wait_frame s).x.x_frame = s.x.x_frame
    ∧ (pdp_v4l2_wait_frame s).w.exited = s.w.exited := by
  simp only [pdp_v4l2_wait_frame]
  split_ifs <;> refine ⟨?_, ?_, ?_⟩ <;>
    first
      | rfl
      | (rw [close_queued]; rfl)
      | (rw [close_x])
      | (rw [close_exited]; rfl)

theorem set_buf_w (s : Sys) {i : Nat} (f : V4l2Buffer → V4l2Buffer) (h : i < 2) :
    (s.set_buf i f).w = s.w := by
  have hw : i < WANTED_BUFFERS := h
  simp only [Sys.set_buf, if_pos hw]

theorem set_buf_frame (s : Sys) (i : Nat) (f : V4l2Buffer → V4l2Buffer) :
    (s.set_buf i f).x.x_frame = s.x.x_frame := by
  simp only [Sys.set_buf]
  split_ifs <;> rfl

theorem set_buf_tvfd (s : Sys) (i : Nat) (f : V4l2Buffer → V4l2Buffer) :
    (s.set_buf i f).x.x_tvfd = s.x.x_tvfd := by
  simp only [Sys.set_buf]
  split_ifs <;> rfl

theorem set_buf_buf (s : Sys) {i : Nat} (f : V4l2Buffer → V4l2Buffer) (h : i < 2) :
    (s.set_buf i f).buf i = f (s.buf i) := by
  have hw : i < WANTED_BUFFERS := h
  simp only [Sys.set_buf, if_pos hw, Sys.buf, upd, if_true]

theorem log_dqbuf_fail (w : World) (fd : Int) (i : Nat)
    (h : (w.answer (.ioctl fd (.VIDIOC_DQBUF i))).ret = -1) :
    (w.log (.ioctl fd (.VIDIOC_DQBUF i))).queued = w.queued := by
  simp only [World.log, if_pos h]

theorem log_dqbuf_ok (w : World) (fd : Int) (i : Nat)
    (h : (w.answer (.ioctl fd (.VIDIOC_DQBUF i))).ret ≠ -1) :
    (w.log (.ioctl fd (.VIDIOC_DQBUF i))).queued
      = w.queued.erase (w.answer (.ioctl fd (.VIDIOC_DQBUF i))).val := by
  simp only [World.log, if_neg h]

theorem log_qbuf_queued (w : World) (fd : Int) (i : Nat)
    (h : (w.answer (.ioctl fd (.VIDIOC_QBUF i))).ret ≠ -1) :
    (w.log (.ioctl fd (.VIDIOC_QBUF i))).queued
      = (if i ∈ w.queued then w.queued else i :: w.queued) := by
  simp only [World.log, if_neg h]

theorem exit_exited (s : Sys) : s.exit.w.exited = true := rfl

/-- One capture keeps both slots in the queue of the driver, unless it ends the process. -/
theorem capture_frame_requeues (s : Sys) (hf : s.x.x_frame < 2)
    (h0 : 0 ∈ s.w.queued) (h1 : 1 ∈ s.w.queued)
    (hx : (pdp_v4l2_capture_frame s).2.w.exited = false) :
    0 ∈ (pdp_v4l2_capture_frame s).2.w.queued ∧ 1 ∈ (pdp_v4l2_capture_frame s).2.w.queued := by
  simp only [pdp_v4l2_capture_frame] at hx ⊢
  have e1 : (s.set_buf s.x.x_frame fun b => { b with index := s.x.x_frame }).w = s.w :=
    set_buf_w s _ hf
  have e2 : (s.set_buf s.x.x_frame fun b => { b with index := s.x.x_frame }).x.x_frame
      = s.x.x_frame := set_buf_frame s _ _
  generalize s.set_buf s.x.x_frame (fun b => { b with index := s.x.x_frame }) = s1 at e1 e2 hx ⊢
  split_ifs at hx ⊢ with c1 c2 c3
  · rw [ioctl_ans] at c1
    rw [ioctl_w, log_dqbuf_fail _ _ _ c1, e1]
    exact ⟨h0, h1⟩
  · rw [exit_exited] at hx
    exact absurd hx (by decide)
  · rw [exit_exited] at hx
    exact absurd hx (by decide)
  · simp only [ioctl_ans, ioctl_x, ioctl_w, e2, set_buf_w _ _ hf, set_buf_buf _ _ hf,
      set_buf_tvfd, set_buf_frame] at c1 c3 ⊢
    rw [log_qbuf_queued _ _ _ c3, log_dqbuf_ok _ _ _ c1, e1]
    exact ⟨mem_requeue _ h0, mem_requeue _ h1⟩

theorem init_mmap_queue_enqueues (s : Sys)
    (h : (init_mmap_queue WANTED_BUFFERS 0 s).1 ≠ -1) :
    0 ∈ (init_mmap_queue WANTED_BUFFERS 0 s).2.w.queued
    ∧ 1 ∈ (init_mmap_queue WANTED_BUFFERS 0 s).2.w.queued := by
  have l0 : (0 : Nat) < 2 := by decide
  have l1 : (1 : Nat) < 2 := by decide
  simp only [WANTED_BUFFERS, init_mmap_queue, Nat.zero_add] at h ⊢
  simp only [Nat.lt_irrefl, if_false, l0, l1, if_true, ioctl_ans, ioctl_x, ioctl_w,
    set_buf_w _ _ l0, set_buf_w _ _ l1, set_buf_buf _ _ l0, set_buf_buf _ _ l1, set_buf_tvfd]
    at h ⊢
  split_ifs at h ⊢ with c1 c2
  · exact absurd rfl h
  · exact absurd rfl h
  · simp only [ioctl_w, set_buf_w _ _ l1, set_buf_tvfd, ioctl_x]
    have a := log_qbuf_ok _ _ _ c1
    have b := log_qbuf_ok _ _ _ c2
    exact ⟨b.2 _ a.1, b.1⟩

theorem init_mmap_enqueues (s : Sys) (h : (pdp_v4l2_init_mmap s).1 = 0) :
    0 ∈ (pdp_v4l2_init_mmap s).2.w.queued ∧ 1 ∈ (pdp_v4l2_init_mmap s).2.w.queued := by
  simp only [pdp_v4l2_init_mmap] at h ⊢
  split_ifs at h ⊢ with c1 c2
  · exact absurd (show (-1 : Int) = 0 from h) (by decide)
  · rw [c2] at h
    exact absurd h (by decide)
  · exact init_mmap_queue_enqueues _ (by rw [h]; decide)

/-- The invariant of the capture thread: `x_frame` is 0 or 1 and, as long as the process
lives, both slots are in the queue of the driver. -/
theorem thread_body_requeues (s : Sys) (hf : s.x.x_frame < 2)
    (hq : 0 ∈ s.w.queued ∧ 1 ∈ s.w.queued) :
    (pdp_v4l2_thread_body s).x.x_frame < 2
    ∧ ((pdp_v4l2_thread_body s).w.exited = false →
      0 ∈ (pdp_v4l2_thread_body s).w.queued ∧ 1 ∈ (pdp_v4l2_thread_body s).w.queued) := by
  obtain ⟨w1, w2, -⟩ := wait_frame_keeps s
  have hf2 : ({ pdp_v4l2_wait_frame s with
      x.x_frame := (pdp_v4l2_wait_frame s).x.x_frame ^^^ 0x1 } : Sys).x.x_frame < 2 := by
    show (pdp_v4l2_wait_frame s).x.x_frame ^^^ 0x1 < 2
    rw [w2]
    exact xor_one_lt_two hf
  have hq2 : 0 ∈ ({ pdp_v4l2_wait_frame s with
      x.x_frame := (pdp_v4l2_wait_frame s).x.x_frame ^^^ 0x1 } : Sys).w.queued
      ∧ 1 ∈ ({ pdp_v4l2_wait_frame s with
      x.x_frame := (pdp_v4l2_wait_frame s).x.x_frame ^^^ 0x1 } : Sys).w.queued := by
    show 0 ∈ (pdp_v4l2_wait_frame s).w.queued ∧ 1 ∈ (pdp_v4l2_wait_frame s).w.queued
    rw [w1]
    exact hq
  have hc := capture_frame_requeues _ hf2 hq2.1 hq2.2
  have hx := (capture_frame_x ({ pdp_v4l2_wait_frame s with
      x.x_frame := (pdp_v4l2_wait_frame s).x.x_frame ^^^ 0x1 } : Sys)).2.2.2.2.1
  simp only [pdp_v4l2_thread_body]
  generalize pdp_v4l2_capture_frame ({ pdp_v4l2_wait_frame s with
      x.x_frame := (pdp_v4l2_wait_frame s).x.x_frame ^^^ 0x1 } : Sys) = r at hc hx ⊢
  split_ifs with e
  · exact ⟨hx ▸ hf2, fun h => absurd (e.symm.trans h) (by decide)⟩
  · exact ⟨hx ▸ hf2, fun _ => hc (by simpa using e)⟩

theorem thread_loop_requeues (n : Nat) (s : Sys) (hf : s.x.x_frame < 2)
    (hq : s.w.exited = false → 0 ∈ s.w.queued ∧ 1 ∈ s.w.queued) :
    (pdp_v4l2_thread_loop n s).2.x.x_frame < 2
    ∧ ((pdp_v4l2_thread_loop n s).2.w.exited = false →
      0 ∈ (pdp_v4l2_thread_loop n s).2.w.queued ∧ 1 ∈ (pdp_v4l2_thread_loop n s).2.w.queued) := by
  induction n generalizing s with
  | zero => exact ⟨hf, hq⟩
  | succ n ih =>
    simp only [pdp_v4l2_thread_loop]
    split_ifs with e c
    · exact ⟨hf, hq⟩
    · have hb := thread_body_requeues s hf (hq (by simpa using e))
      exact ih _ hb.1 hb.2
    · exact ⟨hf, hq⟩

theorem start_capturing_snd (s : Sys) :
    (pdp_v4l2_start_capturing s).2 = (s.ioctl .VIDIOC_STREAMON).2 := by
  simp only [pdp_v4l2_start_capturing]
  split_ifs <;> rfl

theorem thread_enter_requeues (s : Sys) (hf : s.x.x_frame < 2)
    (hq : 0 ∈ s.w.queued ∧ 1 ∈ s.w.queued) :
    (pdp_v4l2_thread_enter s).x.x_frame < 2
    ∧ ((pdp_v4l2_thread_enter s).w.exited = false →
      0 ∈ (pdp_v4l2_thread_enter s).w.queued ∧ 1 ∈ (pdp_v4l2_thread_enter s).w.queued) := by
  simp only [pdp_v4l2_thread_enter]
  split_ifs
  · rw [start_capturing_snd]
    exact ⟨xor_one_lt_two hf, fun h => absurd h (by simp [Sys.exit])⟩
  · rw [start_capturing_snd]
    refine ⟨xor_one_lt_two hf, fun _ => ?_⟩
    rw [ioctl_w, log_queued_other _ _ (by intro fd r h; cases h; rfl)]
    exact hq

/-! ### The index sequence of the capture thread -/

theorem answer_ioctl (w : World) {fd : Int} (r : Ioctl) (h : 0 ≤ fd) :
    w.answer (.ioctl fd r) = w.driver w.trace.length (.ioctl fd r) := by
  simp only [World.answer]
  rw [if_neg (not_lt.mpr h)]

theorem answer_select (w : World) (fd : Int) :
    w.answer (.select fd) = w.driver w.trace.length (.select fd) := rfl

theorem set_buf_driver (s : Sys) (i : Nat) (f : V4l2Buffer → V4l2Buffer) :
    (s.set_buf i f).w.driver = s.w.driver := by
  simp only [Sys.set_buf]
  split_ifs <;> rfl

theorem set_buf_exited (s : Sys) (i : Nat) (f : V4l2Buffer → V4l2Buffer) :
    (s.set_buf i f).w.exited = s.w.exited := by
  simp only [Sys.set_buf]
  split_ifs <;> rfl

theorem wait_frame_streaming (s : Sys) (hd : Streaming s.w.driver) :
    pdp_v4l2_wait_frame s = { s with w := s.w.log (.select s.x.x_tvfd) } := by
  have h := hd.wait s.w.trace.length s.x.x_tvfd
  simp only [pdp_v4l2_wait_frame, answer_select]
  rw [if_neg (by omega), if_neg (by omega)]

theorem capture_frame_streaming (s : Sys) (hfd : 0 ≤ s.x.x_tvfd) (hd : Streaming s.w.driver) :
    (pdp_v4l2_capture_frame s).2.w.exited = s.w.exited := by
  simp only [pdp_v4l2_capture_frame]
  have e1 := set_buf_driver s s.x.x_frame (fun b => { b with index := s.x.x_frame })
  have e2 := set_buf_tvfd s s.x.x_frame (fun b => { b with index := s.x.x_frame })
  have e3 := set_buf_exited s s.x.x_frame (fun b => { b with index := s.x.x_frame })
  generalize s.set_buf s.x.x_frame (fun b => { b with index := s.x.x_frame }) = s1 at e1 e2 e3 ⊢
  have hfd1 : 0 ≤ s1.x.x_tvfd := e2 ▸ hfd
  have c1 : ∀ i, ¬ (s1.ioctl (.VIDIOC_DQBUF i)).1.ret = -1 := by
    intro i
    rw [ioctl_ans, answer_ioctl _ _ hfd1, e1]
    exact hd.dequeue _ _ _
  rw [if_neg (c1 _)]
  have c2 : ∀ (t : Sys) (i : Nat), t.x.x_tvfd = s1.x.x_tvfd → t.w.driver = s1.w.driver →
      ¬ (t.ioctl (.VIDIOC_QBUF i)).1.ret = -1 := by
    intro t i ht hdr
    rw [ioctl_ans, answer_ioctl _ _ (ht ▸ hfd1), hdr, e1]
    exact hd.enqueue _ _ _
  rw [if_neg (c2 _ _ (by rw [set_buf_tvfd]; rfl) (by rw [set_buf_driver]; rfl))]
  show (World.log _ _).exited = _
  rw [log_exited, set_buf_exited]
  exact e3

/-- One round of the loop in front of a driver that never lets the thread down. -/
theorem thread_body_streaming (s : Sys) (hfd : 0 ≤ s.x.x_tvfd) (hx : s.w.exited = false)
    (hd : Streaming s.w.driver) :
    (pdp_v4l2_thread_body s).x.x_tvfd = s.x.x_tvfd
    ∧ (pdp_v4l2_thread_body s).x.x_continue_thread = s.x.x_continue_thread
    ∧ (pdp_v4l2_thread_body s).x.x_initialized = s.x.x_initialized
    ∧ (pdp_v4l2_thread_body s).w.exited = false
    ∧ (pdp_v4l2_thread_body s).w.driver = s.w.driver
    ∧ (pdp_v4l2_thread_body s).x.x_frame = s.x.x_frame ^^^ 0x1
    ∧ (pdp_v4l2_thread_body s).x.x_last_frame = s.x.x_frame ^^^ 0x1
    ∧ (pdp_v4l2_thread_body s).x.x_frame_ready = 1 := by
  have hw := wait_frame_streaming s hd
  have hc := capture_frame_x
    { pdp_v4l2_wait_frame s with x.x_frame := (pdp_v4l2_wait_frame s).x.x_frame ^^^ 0x1 }
  have he := capture_frame_streaming
    { pdp_v4l2_wait_frame s with x.x_frame := (pdp_v4l2_wait_frame s).x.x_frame ^^^ 0x1 }
    (by rw [hw]; exact hfd) (by rw [hw]; exact hd)
  simp only [pdp_v4l2_thread_body]
  generalize pdp_v4l2_capture_frame
    { pdp_v4l2_wait_frame s with x.x_frame := (pdp_v4l2_wait_frame s).x.x_frame ^^^ 0x1 } = r
    at hc he ⊢
  obtain ⟨-, c2, c3, c4, c5, c6⟩ := hc
  have he' : r.2.w.exited = false := by rw [he, hw]; exact hx
  rw [if_neg (by rw [he']; decide)]
  rw [hw] at c2 c3 c4 c5 c6
  exact ⟨c2, c3, c4, he', c6, c5, c5, rfl⟩

theorem xor_one_eq {f : Nat} (h : f < 2) : f ^^^ 0x1 = (f + 1) % 2 := by
  interval_cases f <;> decide

theorem thread_loop_streaming (n : Nat) (s : Sys) (hfd : 0 ≤ s.x.x_tvfd)
    (hc : s.x.x_continue_thread ≠ 0) (hx : s.w.exited = false) (hf : s.x.x_frame < 2)
    (hd : Streaming s.w.driver) :
    (pdp_v4l2_thread_loop (n + 1) s).1 = false
    ∧ (pdp_v4l2_thread_loop (n + 1) s).2.x.x_initialized = s.x.x_initialized
    ∧ (pdp_v4l2_thread_loop (n + 1) s).2.x.x_frame = (s.x.x_frame + n + 1) % 2
    ∧ (pdp_v4l2_thread_loop (n + 1) s).2.x.x_last_frame = (s.x.x_frame + n + 1) % 2
    ∧ (pdp_v4l2_thread_loop (n + 1) s).2.x.x_frame_ready = 1 := by
  induction n generalizing s with
  | zero =>
    obtain ⟨b1, b2, b3, b4, -, b6, b7, b8⟩ := thread_body_streaming s hfd hx hd
    simp only [pdp_v4l2_thread_loop]
    rw [if_neg (by rw [hx]; decide), if_pos hc]
    refine ⟨?_, b3, ?_, ?_, b8⟩
    · simp only [Bool.or_eq_false_iff, decide_eq_false_iff_not]
      exact ⟨by rw [b2]; exact hc, b4⟩
    · rw [b6, xor_one_eq hf]
    · rw [b7, xor_one_eq hf]
  | succ n ih =>
    obtain ⟨b1, b2, b3, b4, b5, b6, -, -⟩ := thread_body_streaming s hfd hx hd
    have hf' : (pdp_v4l2_thread_body s).x.x_frame < 2 := by
      rw [b6]; exact xor_one_lt_two hf
    obtain ⟨i1, i2, i3, i4, i5⟩ := ih (pdp_v4l2_thread_body s) (b1 ▸ hfd) (b2 ▸ hc) b4 hf'
      (b5 ▸ hd)
    have hstep : pdp_v4l2_thread_loop (n + 1 + 1) s
        = pdp_v4l2_thread_loop (n + 1) (pdp_v4l2_thread_body s) := by
      rw [pdp_v4l2_thread_loop, if_neg (by rw [hx]; decide), if_pos hc]
    rw [hstep]
    have hpar : ((pdp_v4l2_thread_body s).x.x_frame + n + 1) % 2
        = (s.x.x_frame + (n + 1) + 1) % 2 := by
      rw [b6, xor_one_eq hf]; omega
    exact ⟨i1, i2.trans b3, i3.trans hpar, i4.trans hpar, i5⟩

theorem thread_enter_streaming (s : Sys) (hfd : 0 ≤ s.x.x_tvfd) (hd : Streaming s.w.driver) :
    (pdp_v4l2_thread_enter s).x.x_tvfd = s.x.x_tvfd
    ∧ (pdp_v4l2_thread_enter s).x.x_continue_thread = s.x.x_continue_thread
    ∧ (pdp_v4l2_thread_enter s).x.x_initialized = s.x.x_initialized
    ∧ (pdp_v4l2_thread_enter s).w.exited = s.w.exited
    ∧ (pdp_v4l2_thread_enter s).w.driver = s.w.driver
    ∧ (pdp_v4l2_thread_enter s).x.x_frame = s.x.x_frame ^^^ 0x1 := by
  have h : ¬ (pdp_v4l2_start_capturing { s with x.x_frame := s.x.x_frame ^^^ 0x1 }).1 = -1 := by
    simp only [pdp_v4l2_start_capturing]
    rw [if_neg]
    · intro hc
      exact absurd (show (0 : Int) = -1 from hc) (by decide)
    · rw [ioctl_ans, answer_ioctl _ _ hfd]
      exact hd.stream_on _ _
  simp only [pdp_v4l2_thread_enter]
  rw [if_neg h, start_capturing_snd]
  exact ⟨rfl, rfl, rfl, rfl, rfl, rfl⟩

theorem open_device_returned {s u : Sys} {name : String} (h : open_device s name = .returned u) :
    u.x.x_initialized = false := by
  have hpre : (if s.x.x_initialized then pdp_v4l2_close s else s).x.x_initialized = false := by
    split_ifs with hi
    · rw [close_x]
    · simpa using hi
  simp only [open_device] at h
  generalize (if s.x.x_initialized then pdp_v4l2_close s else s) = t at hpre h
  simp only [open_node] at h
  split_ifs at h <;> simp only [Flow.returned.injEq] at h <;> subst h
  · exact hpre
  · rfl
  · exact hpre

theorem open_device_goes_on_thread {s t1 : Sys} {name : String}
    (h : open_device s name = .goes_on t1) :
    t1.x.x_frame = s.x.x_frame ∧ t1.w.driver = s.w.driver ∧ t1.w.exited = s.w.exited := by
  have hpre : (if s.x.x_initialized then pdp_v4l2_close s else s).x.x_frame = s.x.x_frame
      ∧ (if s.x.x_initialized then pdp_v4l2_close s else s).w.driver = s.w.driver
      ∧ (if s.x.x_initialized then pdp_v4l2_close s else s).w.exited = s.w.exited := by
    split_ifs
    · exact ⟨by rw [close_x], close_driver s, close_exited s⟩
    · exact ⟨rfl, rfl, rfl⟩
  simp only [open_device] at h
  generalize (if s.x.x_initialized then pdp_v4l2_close s else s) = t at hpre h
  simp only [open_node] at h
  split_ifs at h
  simp only [Flow.goes_on.injEq] at h
  subst h
  exact hpre

theorem open_format_returned {s u : Sys} (h : open_format s = .returned u) :
    u.x.x_initialized = false := by
  simp only [open_format] at h
  split_ifs at h <;> simp only [Flow.returned.injEq] at h <;> subst h <;> rfl

theorem open_format_goes_on {s v : Sys} (h : open_format s = .goes_on v) : v.core = s.core := by
  simp only [open_format] at h
  split_ifs at h
  simp only [Flow.goes_on.injEq] at h
  subst h
  rw [core_set_format, clamp_format_core]

theorem open_stream_initialized (s : Sys) (h : (open_stream s).x.x_initialized = true) :
    (open_stream s).x.x_tvfd = s.x.x_tvfd
    ∧ (open_stream s).x.x_continue_thread = 1
    ∧ (open_stream s).x.x_frame_ready = 0
    ∧ (open_stream s).x.x_frame = s.x.x_frame
    ∧ (open_stream s).w.driver = s.w.driver
    ∧ (open_stream s).w.exited = s.w.exited := by
  have hc := core_init_mmap s
  simp only [open_stream] at h ⊢
  split_ifs at h ⊢ with c
  exact ⟨congrArg Core.tvfd hc, rfl, rfl, congrArg Core.frame hc, congrArg Core.driver hc,
    congrArg Core.exited hc⟩

/-- What a successful open leaves: a descriptor, the thread flagged, no frame ready, and
`x_frame`, the driver and the process as they were. -/
theorem open_initialized (s : Sys) (name : String)
    (hi : (pdp_v4l2_open s name).x.x_initialized = true) :
    0 ≤ (pdp_v4l2_open s name).x.x_tvfd
    ∧ (pdp_v4l2_open s name).x.x_continue_thread = 1
    ∧ (pdp_v4l2_open s name).x.x_frame_ready = 0
    ∧ (pdp_v4l2_open s name).x.x_frame = s.x.x_frame
    ∧ (pdp_v4l2_open s name).w.driver = s.w.driver
    ∧ (pdp_v4l2_open s name).w.exited = s.w.exited := by
  cases hd : open_device s name with
  | returned u =>
    simp only [pdp_v4l2_open, hd] at hi
    rw [open_device_returned hd] at hi
    exact absurd hi (by decide)
  | goes_on t1 =>
    obtain ⟨d1, -, -, -, -⟩ := open_device_goes_on hd
    obtain ⟨e1, e2, e3⟩ := open_device_goes_on_thread hd
    cases hf : open_format (open_negotiate t1) with
    | returned u =>
      simp only [pdp_v4l2_open, hd, hf] at hi
      rw [open_format_returned hf] at hi
      exact absurd hi (by decide)
    | goes_on v =>
      simp only [pdp_v4l2_open, hd, hf] at hi ⊢
      have hv : v.core = t1.core := (open_format_goes_on hf).trans (core_negotiate t1)
      obtain ⟨o1, o2, o3, o4, o5, o6⟩ := open_stream_initialized v hi
      refine ⟨?_, o2, o3, ?_, ?_, ?_⟩
      · rw [o1, show v.x.x_tvfd = t1.x.x_tvfd from congrArg Core.tvfd hv]; exact d1
      · rw [o4, show v.x.x_frame = t1.x.x_frame from congrArg Core.frame hv]; exact e1
      · rw [o5, show v.w.driver = t1.w.driver from congrArg Core.driver hv]; exact e2
      · rw [o6, show v.w.exited = t1.w.exited from congrArg Core.exited hv]; exact e3

theorem bang_frame_ready (s : Sys) (h : s.x.x_frame_ready ≠ 0) :
    (bang_frame s true).1
      = some ⟨s.x.x_last_frame, s.x.x_pdp_buf s.x.x_last_frame, s.x.x_v4l2_format_pixelformat,
          s.x.x_width, s.x.x_height⟩ := by
  simp only [bang_frame]
  rw [if_neg (fun hc => h hc.1)]
  rfl

theorem camera_streaming : Streaming camera where
  wait := fun _ _ => by show (0 : Int) < 1; decide
  dequeue := fun _ _ _ => by show (0 : Int) ≠ -1; decide
  enqueue := fun _ _ _ => by show (0 : Int) ≠ -1; decide
  stream_on := fun _ _ => by show (0 : Int) ≠ -1; decide

/-! ### A failed wait -/

theorem capture_frame_slot (s : Sys) :
    (pdp_v4l2_capture_frame s).2.x.x_frame_ready = s.x.x_frame_ready
    ∧ (pdp_v4l2_capture_frame s).2.x.x_last_frame = s.x.x_last_frame := by
  simp only [pdp_v4l2_capture_frame, Sys.set_buf, Sys.exit]
  split_ifs <;> simp

theorem close_qbufs (s : Sys) : (pdp_v4l2_close s).w.qbufs = s.w.qbufs := by
  simp only [pdp_v4l2_close]
  split_ifs <;> simp [World.qbufs, Event.is_qbuf,
    World.log, WANTED_BUFFERS, List.range_succ, List.range_zero]

theorem set_buf_qbufs (s : Sys) (i : Nat) (f : V4l2Buffer → V4l2Buffer) :
    (s.set_buf i f).w.qbufs = s.w.qbufs := by
  simp only [Sys.set_buf]
  split_ifs <;> rfl

theorem answer_bad_descriptor (w : World) {fd : Int} (r : Ioctl) (h : fd < 0) :
    w.answer (.ioctl fd r) = ⟨-1, EBADF, 0, 0⟩ := by
  simp only [World.answer]
  rw [if_pos h]

/-- A capture on a closed descriptor ends the process before any enqueue. -/
theorem capture_frame_bad_descriptor (t : Sys) (h : t.x.x_tvfd < 0) :
    (pdp_v4l2_capture_frame t).2.w.exited = true
    ∧ (pdp_v4l2_capture_frame t).2.w.qbufs = t.w.qbufs := by
  have e1 := set_buf_tvfd t t.x.x_frame (fun b => { b with index := t.x.x_frame })
  have e2 := set_buf_qbufs t t.x.x_frame (fun b => { b with index := t.x.x_frame })
  simp only [pdp_v4l2_capture_frame]
  generalize t.set_buf t.x.x_frame (fun b => { b with index := t.x.x_frame }) = s1 at e1 e2 ⊢
  have hfd : s1.x.x_tvfd < 0 := e1 ▸ h
  have ha : ∀ i, (s1.ioctl (.VIDIOC_DQBUF i)).1 = ⟨-1, EBADF, 0, 0⟩ := by
    intro i
    rw [ioctl_ans, answer_bad_descriptor _ _ hfd]
  rw [if_pos (by rw [ha]), if_neg (by rw [ha]; decide)]
  refine ⟨rfl, ?_⟩
  show (World.log (World.log s1.w _) Call.exit).qbufs = _
  simp only [World.qbufs, log_trace, List.countP_cons, Event.is_qbuf] at e2 ⊢
  simpa using e2

set_option maxRecDepth 100000 in
/-- Retry exhaustion where the failed open does unwind: with no device node, ten automatic
opens bring the retry count to zero, the eleventh leaves the trace as it is, and a manual
open after it calls `open` again. -/
theorem retry_exhaustion_on_open_failure :
    (run sample_policy (fresh sample_policy "" no_device)
      (List.replicate 10 (.open_auto "/dev/video0"))).x.x_open_retry = 0
    ∧ (run sample_policy (fresh sample_policy "" no_device)
      (List.replicate 10 (.open_auto "/dev/video0"))).w.trace.length = 10
    ∧ (run sample_policy (fresh sample_policy "" no_device)
      (List.replicate 11 (.open_auto "/dev/video0"))).w.trace.length = 10
    ∧ (run sample_policy (fresh sample_policy "" no_device)
      (List.replicate 11 (.open_auto "/dev/video0"))).x.x_tvfd = -1
    ∧ (run sample_policy (fresh sample_policy "" no_device)
      (List.replicate 11 (.open_auto "/dev/video0") ++ [.open_manual "/dev/video0"])).w.opens
      = 11 := by
  decide

/-- C1: for every requested pair and every engine whose bounds are ordered, the width and
height stored by `pdp_v4l2_setlegaldim` lie between the engine's bounds, whatever the
injected size functions return. -/
theorem setlegaldim_within_bounds (P : Imageproc) (x : t_pdp_v4l2) (xx yy : Int)
    (hw : x.x_minwidth ≤ x.x_maxwidth) (hh : x.x_minheight ≤ x.x_maxheight) :
    x.x_minwidth ≤ (pdp_v4l2_setlegaldim P x xx yy).x_width
    ∧ (pdp_v4l2_setlegaldim P x xx yy).x_width ≤ x.x_maxwidth
    ∧ x.x_minheight ≤ (pdp_v4l2_setlegaldim P x xx yy).x_height
    ∧ (pdp_v4l2_setlegaldim P x xx yy).x_height ≤ x.x_maxheight := by
  simp only [pdp_v4l2_setlegaldim]
  refine ⟨?_, ?_, ?_, ?_⟩ <;> split_ifs <;> omega

/-- C1 at a concrete engine: the fresh engine of the sample policy, asked for 5000 x 3. -/
theorem setlegaldim_within_bounds_witness :
    (pdp_v4l2_new sample_policy "").x_minwidth
        ≤ (pdp_v4l2_setlegaldim sample_policy (pdp_v4l2_new sample_policy "") 5000 3).x_width
    ∧ (pdp_v4l2_setlegaldim sample_policy (pdp_v4l2_new sample_policy "") 5000 3).x_width
        ≤ (pdp_v4l2_new sample_policy "").x_maxwidth
    ∧ (pdp_v4l2_new sample_policy "").x_minheight
        ≤ (pdp_v4l2_setlegaldim sample_policy (pdp_v4l2_new sample_policy "") 5000 3).x_height
    ∧ (pdp_v4l2_setlegaldim sample_policy (pdp_v4l2_new sample_policy "") 5000 3).x_height
        ≤ (pdp_v4l2_new sample_policy "").x_maxheight :=
  setlegaldim_within_bounds sample_policy (pdp_v4l2_new sample_policy "") 5000 3
    (by decide) (by decide)

/-- C2: the dimension clamp is idempotent.  For every size policy that rounds onto legal
sizes, every engine carrying the bounds fixed at construction and every requested pair,
calling `pdp_v4l2_setlegaldim` again on the stored `(x_width, x_height)` leaves both
unchanged. -/
theorem setlegaldim_idempotent (P : Imageproc) (hP : P.Rounding) (x : t_pdp_v4l2)
    (hb : construction_bounds P x) (w h : Int) :
    (pdp_v4l2_setlegaldim P (pdp_v4l2_setlegaldim P x w h)
        (to_int (pdp_v4l2_setlegaldim P x w h).x_width)
        (to_int (pdp_v4l2_setlegaldim P x w h).x_height)).x_width
      = (pdp_v4l2_setlegaldim P x w h).x_width
    ∧ (pdp_v4l2_setlegaldim P (pdp_v4l2_setlegaldim P x w h)
        (to_int (pdp_v4l2_setlegaldim P x w h).x_width)
        (to_int (pdp_v4l2_setlegaldim P x w h).x_height)).x_height
      = (pdp_v4l2_setlegaldim P x w h).x_height := by
  obtain ⟨h1, h2, h3, h4⟩ := hb
  have fixw : ∀ r, (r = u32 (P.legalwidth w) ∨ r = x.x_maxwidth ∨ r = x.x_minwidth) →
      u32 (P.legalwidth (to_int r)) = r := by
    intro r hr
    rcases hr with hr | hr | hr
    · rw [hr, u32_of_lt (hP.width_int w), to_int_of_lt (hP.width_int w), hP.width_idem,
        u32_of_lt (hP.width_int w)]
    · rw [hr, h2, u32_of_lt hP.maxwidth_int, to_int_of_lt hP.maxwidth_int, hP.maxwidth_legal,
        u32_of_lt hP.maxwidth_int]
    · rw [hr, h1, u32_of_lt (hP.width_int 0), to_int_of_lt (hP.width_int 0)]
      have := hP.width_idem 0
      simp only [Nat.cast_ofNat] at this ⊢
      rw [this, u32_of_lt (hP.width_int 0)]
  have fixh : ∀ r, (r = u32 (P.legalheight h) ∨ r = x.x_maxheight ∨ r = x.x_minheight) →
      u32 (P.legalheight (to_int r)) = r := by
    intro r hr
    rcases hr with hr | hr | hr
    · rw [hr, u32_of_lt (hP.height_int h), to_int_of_lt (hP.height_int h), hP.height_idem,
        u32_of_lt (hP.height_int h)]
    · rw [hr, h4, u32_of_lt hP.maxheight_int, to_int_of_lt hP.maxheight_int,
        hP.maxheight_legal, u32_of_lt hP.maxheight_int]
    · rw [hr, h3, u32_of_lt (hP.height_int 0), to_int_of_lt (hP.height_int 0)]
      have := hP.height_idem 0
      simp only [Nat.cast_ofNat] at this ⊢
      rw [this, u32_of_lt (hP.height_int 0)]
  constructor
  · simp only [pdp_v4l2_setlegaldim]
    rw [fixw _ (clamp_cases _ _ _)]
    exact clamp_stable _ _ _
  · simp only [pdp_v4l2_setlegaldim]
    rw [fixh _ (clamp_cases _ _ _)]
    exact clamp_stable _ _ _

theorem sample_policy_rounding : sample_policy.Rounding where
  width_int := by intro i; simp only [sample_policy]; split_ifs <;> omega
  height_int := by intro i; simp only [sample_policy]; split_ifs <;> omega
  width_idem := by intro i; simp only [sample_policy]; split_ifs <;> omega
  height_idem := by intro i; simp only [sample_policy]; split_ifs <;> omega
  maxwidth_int := by decide
  maxheight_int := by decide
  maxwidth_legal := by decide
  maxheight_legal := by decide

/-- C2 at a concrete engine: the fresh engine of the sample policy, asked for 333 x 5000,
stores 336 x 1024 and keeps it when clamped again. -/
theorem setlegaldim_idempotent_witness :
    (pdp_v4l2_setlegaldim sample_policy (pdp_v4l2_new sample_policy "") 333 5000).x_width = 336
    ∧ (pdp_v4l2_setlegaldim sample_policy
        (pdp_v4l2_setlegaldim sample_policy (pdp_v4l2_new sample_policy "") 333 5000)
        (to_int (pdp_v4l2_setlegaldim sample_policy (pdp_v4l2_new sample_policy "") 333 5000).x_width)
        (to_int (pdp_v4l2_setlegaldim sample_policy (pdp_v4l2_new sample_policy "") 333 5000).x_height)).x_width
      = (pdp_v4l2_setlegaldim sample_policy (pdp_v4l2_new sample_policy "") 333 5000).x_width
    ∧ (pdp_v4l2_setlegaldim sample_policy
        (pdp_v4l2_setlegaldim sample_policy (pdp_v4l2_new sample_policy "") 333 5000)
        (to_int (pdp_v4l2_setlegaldim sample_policy (pdp_v4l2_new sample_policy "") 333 5000).x_width)
        (to_int (pdp_v4l2_setlegaldim sample_policy (pdp_v4l2_new sample_policy "") 333 5000).x_height)).x_height
      = (pdp_v4l2_setlegaldim sample_policy (pdp_v4l2_new sample_policy "") 333 5000).x_height :=
  ⟨by decide, setlegaldim_idempotent sample_policy sample_policy_rounding
    (pdp_v4l2_new sample_policy "") ⟨rfl, rfl, rfl, rfl⟩ 333 5000⟩

set_option maxRecDepth 100000 in
/-- C3, evaluated where it fails: in front of a node that opens but refuses the capability
query, ten automatic opens in a row all fail (the engine is never initialized), yet the
retry count is still 10 afterwards, and the eleventh automatic open goes to the device
again: it issues an `open` and an `ioctl`. -/
theorem retry_not_consumed_by_querycap_failure :
    (∀ k < 11, (run sample_policy (fresh sample_policy "" not_a_capture_device)
      (List.replicate k (.open_auto "/dev/video0"))).x.x_initialized = false)
    ∧ (run sample_policy (fresh sample_policy "" not_a_capture_device)
      (List.replicate 10 (.open_auto "/dev/video0"))).x.x_open_retry = 10
    ∧ (run sample_policy (fresh sample_policy "" not_a_capture_device)
      (List.replicate 10 (.open_auto "/dev/video0"))).w.opens = 10
    ∧ (pdp_v4l2_open (run sample_policy (fresh sample_policy "" not_a_capture_device)
      (List.replicate 10 (.open_auto "/dev/video0"))) "/dev/video0").w.opens = 11
    ∧ ((pdp_v4l2_open (run sample_policy (fresh sample_policy "" not_a_capture_device)
      (List.replicate 10 (.open_auto "/dev/video0"))) "/dev/video0").w.trace.map Event.call).take 2
      = [.ioctl 3 .VIDIOC_QUERYCAP, .sys_open "/dev/video0"] := by
  decide

set_option maxRecDepth 100000 in
/-- C4, evaluated where it fails: an automatic open of a fresh engine whose capability
query fails returns with the engine not initialized and no thread flagged, but with the
descriptor 3 still in `x_tvfd`, never closed, and with the retry count still 10. -/
theorem querycap_failure_not_unwound :
    (fresh sample_policy "" not_a_capture_device).x.x_open_retry = 10
    ∧ (pdp_v4l2_open (fresh sample_policy "" not_a_capture_device) "/dev/video0").x.x_initialized
      = false
    ∧ (pdp_v4l2_open (fresh sample_policy "" not_a_capture_device)
      "/dev/video0").x.x_continue_thread = 0
    ∧ (pdp_v4l2_open (fresh sample_policy "" not_a_capture_device) "/dev/video0").x.x_tvfd = 3
    ∧ (pdp_v4l2_open (fresh sample_policy "" not_a_capture_device) "/dev/video0").x.x_open_retry
      = 10
    ∧ (pdp_v4l2_open (fresh sample_policy "" not_a_capture_device)
      "/dev/video0").w.trace.map Event.call
      = [.ioctl 3 .VIDIOC_QUERYCAP, .sys_open "/dev/video0"] := by
  decide

/-- The format echo in general: a driver that accepts the format request but echoes another
pixel format makes `pdp_v4l2_set_format` fail, and a `pdp_v4l2_open` that gets as far as
the format request and is answered with another pixel format than it asked for ends not
initialized, with descriptor `-1`, no thread flagged, no `mmap` and no `pthread_create`
issued by it, and the buffers of an engine that was initialized on entry unmapped.  When
the echo equals the request and the request succeeds, `pdp_v4l2_set_format` returns
success.  A buffer that an earlier failed open left mapped stays mapped. -/
theorem format_echo_mismatch (s : Sys) (index : Nat) (t t1 : Sys) (name : String)
    (hdev : open_device t name = .goes_on t1)
    (hfmt : 0 < (open_negotiate t1).x.x_nformats)
    (hval : (set_format_answer (open_clamp_format (open_negotiate t1))
      (open_clamp_format (open_negotiate t1)).x.x_curformat.toNat).val
        ≠ (open_clamp_format (open_negotiate t1)).x.x_formats
          (open_clamp_format (open_negotiate t1)).x.x_curformat.toNat) :
    ((set_format_answer s index).ret ≠ -1 →
        (set_format_answer s index).val ≠ s.x.x_formats index →
        (pdp_v4l2_set_format s index).1 = -1)
    ∧ ((set_format_answer s index).ret ≠ -1 →
        (set_format_answer s index).val = s.x.x_formats index →
        (pdp_v4l2_set_format s index).1 = 0)
    ∧ (pdp_v4l2_open t name).x.x_initialized = false
    ∧ (pdp_v4l2_open t name).x.x_tvfd = -1
    ∧ (pdp_v4l2_open t name).x.x_continue_thread = 0
    ∧ (pdp_v4l2_open t name).w.map_calls = t.w.map_calls
    ∧ (pdp_v4l2_open t name).w.threads = t.w.threads
    ∧ (pdp_v4l2_open t name).w.unmaps
        = t.w.unmaps + (if t.x.x_initialized then WANTED_BUFFERS else 0) := by
  refine ⟨fun _ h => set_format_fails s index (Or.inr h),
    fun h1 h2 => set_format_succeeds s index h1 h2, ?_⟩
  obtain ⟨d1, d2, d3, d4, d5⟩ := open_device_goes_on hdev
  have hfail := set_format_fails _ _ (Or.inr hval)
  have hf : open_format (open_negotiate t1) = .returned
      { pdp_v4l2_close_error (pdp_v4l2_set_format (open_clamp_format (open_negotiate t1))
          (open_clamp_format (open_negotiate t1)).x.x_curformat.toNat).2
        with x.x_initialized := false } := by
    simp only [open_format]
    rw [if_pos hfmt, hfail]
    rfl
  have hopen : pdp_v4l2_open t name =
      { pdp_v4l2_close_error (pdp_v4l2_set_format (open_clamp_format (open_negotiate t1))
          (open_clamp_format (open_negotiate t1)).x.x_curformat.toNat).2
        with x.x_initialized := false } := by
    simp only [pdp_v4l2_open, hdev, hf]
  have hcore : (pdp_v4l2_set_format (open_clamp_format (open_negotiate t1))
      (open_clamp_format (open_negotiate t1)).x.x_curformat.toNat).2.core = t1.core := by
    rw [core_set_format, clamp_format_core, core_negotiate]
  have hpool : (pdp_v4l2_set_format (open_clamp_format (open_negotiate t1))
      (open_clamp_format (open_negotiate t1)).x.x_curformat.toNat).2.pool = t1.pool := by
    rw [pool_set_format, clamp_format_pool, pool_negotiate]
  have hfd : 0 ≤ (pdp_v4l2_set_format (open_clamp_format (open_negotiate t1))
      (open_clamp_format (open_negotiate t1)).x.x_curformat.toNat).2.x.x_tvfd := by
    have := congrArg Core.tvfd hcore
    simp only [Sys.core] at this
    rw [this]; exact d1
  obtain ⟨u1, u2, u3, u4, u5, u6⟩ := close_error_unwinds _ hfd
  rw [hopen]
  refine ⟨u1, u2, u3, ?_, ?_, ?_⟩
  · rw [u4]
    have h1 := congrArg Pool.map_calls hpool
    have h2 := congrArg Pool.map_calls d2
    simp only [Sys.pool] at h1 h2
    rw [h1, h2]
  · rw [u5]
    have h1 := congrArg Core.threads hcore
    simp only [Sys.core] at h1
    rw [h1, d3]
  · rw [u6]
    have h1 := congrArg Core.unmaps hcore
    have h2 := congrArg Core.initialized hcore
    simp only [Sys.core] at h1 h2
    rw [h1, h2, d4, d5]
    simp

set_option maxRecDepth 100000 in
/-- The format echo at a concrete input: the camera whose driver switches to YUYV, opened
from a fresh object. -/
theorem format_echo_mismatch_witness :
    (pdp_v4l2_open (fresh sample_policy "" camera_substituting) "/dev/video0").x.x_initialized
        = false
    ∧ (pdp_v4l2_open (fresh sample_policy "" camera_substituting) "/dev/video0").x.x_tvfd = -1
    ∧ (pdp_v4l2_open (fresh sample_policy "" camera_substituting) "/dev/video0").x.x_continue_thread
        = 0
    ∧ (pdp_v4l2_open (fresh sample_policy "" camera_substituting) "/dev/video0").w.map_calls
        = (fresh sample_policy "" camera_substituting).w.map_calls
    ∧ (pdp_v4l2_open (fresh sample_policy "" camera_substituting) "/dev/video0").w.threads
        = (fresh sample_policy "" camera_substituting).w.threads
    ∧ (pdp_v4l2_open (fresh sample_policy "" camera_substituting) "/dev/video0").w.unmaps
        = (fresh sample_policy "" camera_substituting).w.unmaps
          + (if (fresh sample_policy "" camera_substituting).x.x_initialized then WANTED_BUFFERS
            else 0) :=
  (format_echo_mismatch (fresh sample_policy "" camera_substituting) 0
    (fresh sample_policy "" camera_substituting)
    (open_device (fresh sample_policy "" camera_substituting) "/dev/video0").state
    "/dev/video0" (by rfl) (by decide) (by decide)).2.2

set_option maxRecDepth 100000 in
/-- C5, evaluated where it fails: a first automatic open whose second `mmap` fails leaves
one buffer mapped; a second automatic open is then answered by the driver with success and
another pixel format (YUYV for the planar YUV 4:2:0 it asked for).  It ends not
initialized, with descriptor `-1`, no thread flagged and none created, without having
called `mmap`, but with the buffer of the first open still mapped: one successful `mmap`
and no `munmap`. -/
theorem format_mismatch_keeps_leaked_buffer :
    (run sample_policy (fresh sample_policy "" camera_failing_twice)
      [.open_auto "/dev/video0"]).w.maps = 1
    ∧ (run sample_policy (fresh sample_policy "" camera_failing_twice)
      [.open_auto "/dev/video0"]).w.map_calls = 2
    ∧ (run sample_policy (fresh sample_policy "" camera_failing_twice)
      [.open_auto "/dev/video0"]).w.unmaps = 0
    ∧ ((run sample_policy (fresh sample_policy "" camera_failing_twice)
      [.open_auto "/dev/video0", .open_auto "/dev/video0"]).w.trace.take 2)
      = [⟨.close 3, ⟨0, 0, 0, 0⟩⟩,
         ⟨.ioctl 3 (.VIDIOC_S_FMT V4L2_PIX_FMT_YUV420 320 240),
          ⟨0, 0, V4L2_PIX_FMT_YUYV, 0⟩⟩]
    ∧ (run sample_policy (fresh sample_policy "" camera_failing_twice)
      [.open_auto "/dev/video0", .open_auto "/dev/video0"]).x.x_initialized = false
    ∧ (run sample_policy (fresh sample_policy "" camera_failing_twice)
      [.open_auto "/dev/video0", .open_auto "/dev/video0"]).x.x_tvfd = -1
    ∧ (run sample_policy (fresh sample_policy "" camera_failing_twice)
      [.open_auto "/dev/video0", .open_auto "/dev/video0"]).x.x_continue_thread = 0
    ∧ (run sample_policy (fresh sample_policy "" camera_failing_twice)
      [.open_auto "/dev/video0", .open_auto "/dev/video0"]).w.threads = 0
    ∧ (run sample_policy (fresh sample_policy "" camera_failing_twice)
      [.open_auto "/dev/video0", .open_auto "/dev/video0"]).w.map_calls = 2
    ∧ (run sample_policy (fresh sample_policy "" camera_failing_twice)
      [.open_auto "/dev/video0", .open_auto "/dev/video0"]).w.maps = 1
    ∧ (run sample_policy (fresh sample_policy "" camera_failing_twice)
      [.open_auto "/dev/video0", .open_auto "/dev/video0"]).w.unmaps = 0 := by
  decide

set_option maxRecDepth 100000 in
/-- The two words of `VIDIOC_G_STD`: on the TV card, after the format 1 has been asked for,
the reopening reads the standard back over `x_curstandard` and `x_curformat`, and the
format set is format 0 again. -/
theorem g_std_overwrites_curformat :
    (run sample_policy (fresh sample_policy "" tv_card)
      [.open_auto "/dev/video0"]).x.x_initialized = true
    ∧ (run sample_policy (fresh sample_policy "" tv_card)
      [.open_auto "/dev/video0"]).x.x_nformats = 2
    ∧ (run sample_policy (fresh sample_policy "" tv_card)
      [.open_auto "/dev/video0", .format 1]).x.x_initialized = true
    ∧ (run sample_policy (fresh sample_policy "" tv_card)
      [.open_auto "/dev/video0", .format 1]).x.x_curstandard = 0xff
    ∧ (run sample_policy (fresh sample_policy "" tv_card)
      [.open_auto "/dev/video0", .format 1]).x.x_curformat = 0
    ∧ (run sample_policy (fresh sample_policy "" tv_card)
      [.open_auto "/dev/video0", .format 1]).x.x_v4l2_format_pixelformat
      = V4L2_PIX_FMT_YUV420 := by
  decide

set_option maxRecDepth 100000 in
/-- C6, evaluated where it fails: when the second `mmap` of `pdp_v4l2_init_mmap` fails, the
open ends with the engine closed, one successful `mmap` and no `munmap`; a manual close
afterwards does not unmap it either. -/
theorem mapped_buffer_leaks_on_map_failure :
    (pdp_v4l2_open (fresh sample_policy "" camera_second_map_fails) "/dev/video0").x.x_initialized
      = false
    ∧ (pdp_v4l2_open (fresh sample_policy "" camera_second_map_fails) "/dev/video0").x.x_tvfd = -1
    ∧ (pdp_v4l2_open (fresh sample_policy "" camera_second_map_fails)
      "/dev/video0").x.x_continue_thread = 0
    ∧ (pdp_v4l2_open (fresh sample_policy "" camera_second_map_fails) "/dev/video0").w.maps = 1
    ∧ (pdp_v4l2_open (fresh sample_policy "" camera_second_map_fails) "/dev/video0").w.unmaps = 0
    ∧ (pdp_v4l2_close_manual (pdp_v4l2_open (fresh sample_policy "" camera_second_map_fails)
      "/dev/video0")).w.unmaps = 0 := by
  decide

/-- C7: freshness of the poll.  On an initialized engine, with nothing happening between
two polls: when only new frames are wanted the second poll delivers nothing and leaves
`x_frame_ready` and `x_last_frame` as the first poll left them; otherwise each of the two
polls that gets a packet header delivers the same slot `x_last_frame`, with the same
buffer, format and size.  Whatever the state, a poll that delivers leaves `x_frame_ready`
at zero. -/
theorem poll_freshness (s : Sys) (ok1 ok2 : Bool) (t : Sys) (ok : Bool)
    (hinit : s.x.x_initialized = true) :
    (s.x.x_only_new_frames ≠ 0 →
      (pdp_v4l2_bang (pdp_v4l2_bang s ok1).2 ok2).1 = none
      ∧ (pdp_v4l2_bang (pdp_v4l2_bang s ok1).2 ok2).2.x.x_frame_ready
        = (pdp_v4l2_bang s ok1).2.x.x_frame_ready
      ∧ (pdp_v4l2_bang (pdp_v4l2_bang s ok1).2 ok2).2.x.x_last_frame
        = (pdp_v4l2_bang s ok1).2.x.x_last_frame)
    ∧ (s.x.x_only_new_frames = 0 →
      (pdp_v4l2_bang s ok1).1
        = (if ok1 then some ⟨s.x.x_last_frame, s.x.x_pdp_buf s.x.x_last_frame,
            s.x.x_v4l2_format_pixelformat, s.x.x_width, s.x.x_height⟩ else none)
      ∧ (pdp_v4l2_bang (pdp_v4l2_bang s ok1).2 ok2).1
        = (if ok2 then some ⟨s.x.x_last_frame, s.x.x_pdp_buf s.x.x_last_frame,
            s.x.x_v4l2_format_pixelformat, s.x.x_width, s.x.x_height⟩ else none))
    ∧ ((pdp_v4l2_bang t ok).1 ≠ none → (pdp_v4l2_bang t ok).2.x.x_frame_ready = 0) := by
  refine ⟨?_, ?_, ?_⟩
  · intro hnew
    rw [bang_of_initialized s ok1 hinit]
    obtain ⟨h1, h2, h3⟩ := bang_frame_only_new s ok1
    rw [bang_of_initialized _ ok2 (h2.trans hinit), bang_frame_nothing _ ok2 h1 (h3 ▸ hnew)]
    exact ⟨rfl, rfl, rfl⟩
  · intro hnew
    rw [bang_of_initialized s ok1 hinit, bang_frame_always s ok1 hnew]
    refine ⟨rfl, ?_⟩
    rw [bang_of_initialized ({ s with x.x_frame_ready := 0 } : Sys) ok2 hinit,
      bang_frame_always ({ s with x.x_frame_ready := 0 } : Sys) ok2 hnew]
  · simp only [pdp_v4l2_bang, bang_frame]
    split_ifs <;> simp

set_option maxRecDepth 100000 in
/-- C7 at a concrete input: the camera after one round of the capture thread, polled twice. -/
theorem poll_freshness_witness :
    ((pdp_v4l2_thread_loop 1 (pdp_v4l2_thread_enter
        (pdp_v4l2_open (fresh sample_policy "" camera) "/dev/video0"))).2.x.x_only_new_frames ≠ 0 →
      (pdp_v4l2_bang (pdp_v4l2_bang (pdp_v4l2_thread_loop 1 (pdp_v4l2_thread_enter
        (pdp_v4l2_open (fresh sample_policy "" camera) "/dev/video0"))).2 true).2 true).1 = none)
    ∧ (pdp_v4l2_bang (pdp_v4l2_thread_loop 1 (pdp_v4l2_thread_enter
        (pdp_v4l2_open (fresh sample_policy "" camera) "/dev/video0"))).2 true).2.x.x_frame_ready
      = 0 :=
  ⟨fun h => ((poll_freshness (pdp_v4l2_thread_loop 1 (pdp_v4l2_thread_enter
        (pdp_v4l2_open (fresh sample_policy "" camera) "/dev/video0"))).2 true true
      (pdp_v4l2_thread_loop 1 (pdp_v4l2_thread_enter
        (pdp_v4l2_open (fresh sample_policy "" camera) "/dev/video0"))).2 true
      (by decide)).1 h).1,
   (poll_freshness (pdp_v4l2_thread_loop 1 (pdp_v4l2_thread_enter
        (pdp_v4l2_open (fresh sample_policy "" camera) "/dev/video0"))).2 true true
      (pdp_v4l2_thread_loop 1 (pdp_v4l2_thread_enter
        (pdp_v4l2_open (fresh sample_policy "" camera) "/dev/video0"))).2 true
      (by decide)).2.2 (by decide)⟩

/-- C8: the retry count is reset by the manual operations only.  `pdp_v4l2_open_manual`
and `pdp_v4l2_close_manual` act on the state whose `x_open_retry` is 10, and end with a
count of 10 (close) or between 0 and 10 (open); every sequence of the other operations
(automatic open, close, error close, the four reconfigurations, poll, free, rounds of the
capture thread) ends with a count that is not above the one it started with, and not
below zero when it started at zero or more. -/
theorem retry_reset_only_by_manual (P : Imageproc) (s : Sys) (name : String) (cs : List Cmd)
    (hauto : ∀ c ∈ cs, c.is_manual = false) :
    pdp_v4l2_open_manual s name = pdp_v4l2_open { s with x.x_open_retry := 10 } name
    ∧ pdp_v4l2_close_manual s = pdp_v4l2_close { s with x.x_open_retry := 10 }
    ∧ (pdp_v4l2_close_manual s).x.x_open_retry = 10
    ∧ 0 ≤ (pdp_v4l2_open_manual s name).x.x_open_retry
    ∧ (pdp_v4l2_open_manual s name).x.x_open_retry ≤ 10
    ∧ (run P s cs).x.x_open_retry ≤ s.x.x_open_retry
    ∧ (0 ≤ s.x.x_open_retry → 0 ≤ (run P s cs).x.x_open_retry) := by
  have hm := retry_open { s with x.x_open_retry := 10 } name
  have hr := retry_run P cs s hauto
  refine ⟨rfl, rfl, ?_, hm.2 (by show (0 : Int) ≤ 10; decide), hm.1, hr.1, hr.2⟩
  show (pdp_v4l2_close _).x.x_open_retry = 10
  rw [close_x]
  rfl

set_option maxRecDepth 100000 in
/-- C8 at a concrete input: the camera, opened, polled, closed on error and opened again. -/
theorem retry_reset_only_by_manual_witness :
    (run sample_policy (fresh sample_policy "" camera_second_map_fails)
      [.open_auto "/dev/video0", .bang true, .close_error, .thread_round,
        .open_auto "/dev/video0"]).x.x_open_retry
      ≤ (fresh sample_policy "" camera_second_map_fails).x.x_open_retry
    ∧ (0 ≤ (fresh sample_policy "" camera_second_map_fails).x.x_open_retry →
      0 ≤ (run sample_policy (fresh sample_policy "" camera_second_map_fails)
        [.open_auto "/dev/video0", .bang true, .close_error, .thread_round,
          .open_auto "/dev/video0"]).x.x_open_retry) :=
  (retry_reset_only_by_manual sample_policy (fresh sample_policy "" camera_second_map_fails)
    "/dev/video0" [.open_auto "/dev/video0", .bang true, .close_error, .thread_round,
      .open_auto "/dev/video0"] (by decide)).2.2.2.2.2

set_option maxRecDepth 100000 in
/-- C9 fails as stated: in front of the camera, `pdp_v4l2_init_mmap` succeeds and leaves
both slots enqueued, and after the thread has started and after each of its first three
rounds both slots are enqueued again, so that the slot named by `x_last_frame` is one of
the enqueued ones. -/
theorem single_in_flight_fails :
    (pdp_v4l2_init_mmap camera_before_mmap).1 = 0
    ∧ (pdp_v4l2_init_mmap camera_before_mmap).2.w.queued = [1, 0]
    ∧ ¬ single_in_flight (pdp_v4l2_init_mmap camera_before_mmap).2
    ∧ (∀ k < 4,
      (pdp_v4l2_thread_loop k (pdp_v4l2_thread_enter
        (pdp_v4l2_open (fresh sample_policy "" camera) "/dev/video0"))).2.w.exited = false
      ∧ 0 ∈ (pdp_v4l2_thread_loop k (pdp_v4l2_thread_enter
        (pdp_v4l2_open (fresh sample_policy "" camera) "/dev/video0"))).2.w.queued
      ∧ 1 ∈ (pdp_v4l2_thread_loop k (pdp_v4l2_thread_enter
        (pdp_v4l2_open (fresh sample_policy "" camera) "/dev/video0"))).2.w.queued
      ∧ ¬ single_in_flight (pdp_v4l2_thread_loop k (pdp_v4l2_thread_enter
        (pdp_v4l2_open (fresh sample_policy "" camera) "/dev/video0"))).2) := by
  decide

/-- C9, as amended: whenever `pdp_v4l2_init_mmap` succeeds, both slots are enqueued to the
driver when it returns, and they are both enqueued again after the thread has started and
after any number of rounds of its loop, as long as the process has not exited: each
round re-enqueues the buffer it dequeued before it publishes it. -/
theorem both_slots_stay_enqueued (s : Sys) (n : Nat) (hf : s.x.x_frame < 2)
    (hok : (pdp_v4l2_init_mmap s).1 = 0) :
    (0 ∈ (pdp_v4l2_init_mmap s).2.w.queued ∧ 1 ∈ (pdp_v4l2_init_mmap s).2.w.queued)
    ∧ ((pdp_v4l2_thread_loop n (pdp_v4l2_thread_enter (open_stream s))).2.w.exited = false →
      0 ∈ (pdp_v4l2_thread_loop n (pdp_v4l2_thread_enter (open_stream s))).2.w.queued
      ∧ 1 ∈ (pdp_v4l2_thread_loop n (pdp_v4l2_thread_enter (open_stream s))).2.w.queued) := by
  have hq := init_mmap_enqueues s hok
  refine ⟨hq, ?_⟩
  have hs : (open_stream s).x.x_frame < 2
      ∧ (0 ∈ (open_stream s).w.queued ∧ 1 ∈ (open_stream s).w.queued) := by
    have hfr : (pdp_v4l2_init_mmap s).2.x.x_frame = s.x.x_frame :=
      congrArg Core.frame (core_init_mmap s)
    simp only [open_stream]
    rw [if_neg (by rw [hok]; decide)]
    refine ⟨hfr ▸ hf, ?_⟩
    show 0 ∈ (World.log _ _).queued ∧ 1 ∈ (World.log _ _).queued
    rw [log_queued_other _ _ (by intro fd r h; cases h)]
    exact hq
  have he := thread_enter_requeues (open_stream s) hs.1 hs.2
  exact (thread_loop_requeues n _ he.1 he.2).2

set_option maxRecDepth 100000 in
/-- C9, as amended, at a concrete input: the camera, three rounds of the loop. -/
theorem both_slots_stay_enqueued_witness :
    (0 ∈ (pdp_v4l2_init_mmap camera_before_mmap).2.w.queued
      ∧ 1 ∈ (pdp_v4l2_init_mmap camera_before_mmap).2.w.queued)
    ∧ ((pdp_v4l2_thread_loop 3 (pdp_v4l2_thread_enter
        (open_stream camera_before_mmap))).2.w.exited = false →
      0 ∈ (pdp_v4l2_thread_loop 3 (pdp_v4l2_thread_enter
        (open_stream camera_before_mmap))).2.w.queued
      ∧ 1 ∈ (pdp_v4l2_thread_loop 3 (pdp_v4l2_thread_enter
        (open_stream camera_before_mmap))).2.w.queued) :=
  both_slots_stay_enqueued camera_before_mmap 3 (by decide) (by decide)

set_option maxRecDepth 100000 in
/-- C10 fails as stated, at three cameras that all let the open of a fresh engine succeed
with 2 granted buffers and answer every wait and every dequeue successfully.  At the
well-behaved camera the first round of the loop publishes `x_last_frame = 0`, not 1, with
`x_frame_ready = 1`, a poll after it delivers slot 0, and the first four rounds publish
0, 1, 0, 1.  At the camera that refuses to switch streaming on, and at the camera that
refuses the enqueue of the first round, the process exits and nothing is published. -/
theorem capture_index_claim_fails :
    (∀ n fd, 0 < (camera n (.select fd)).ret)
    ∧ (∀ n fd i, (camera n (.ioctl fd (.VIDIOC_DQBUF i))).ret ≠ -1)
    ∧ (∀ n fd, 0 < (camera_no_streamon n (.select fd)).ret)
    ∧ (∀ n fd i, (camera_no_streamon n (.ioctl fd (.VIDIOC_DQBUF i))).ret ≠ -1)
    ∧ (∀ n fd, 0 < (camera_no_requeue n (.select fd)).ret)
    ∧ (∀ n fd i, (camera_no_requeue n (.ioctl fd (.VIDIOC_DQBUF i))).ret ≠ -1)
    ∧ ((pdp_v4l2_open (fresh sample_policy "" camera) "/dev/video0").x.x_initialized = true
      ∧ (pdp_v4l2_open (fresh sample_policy "" camera) "/dev/video0").x.x_reqbufs_count = 2
      ∧ (pdp_v4l2_thread_loop 1 (pdp_v4l2_thread_enter
          (pdp_v4l2_open (fresh sample_policy "" camera) "/dev/video0"))).2.x.x_frame_ready = 1
      ∧ (pdp_v4l2_thread_loop 1 (pdp_v4l2_thread_enter
          (pdp_v4l2_open (fresh sample_policy "" camera) "/dev/video0"))).2.x.x_last_frame = 0
      ∧ ¬ (pdp_v4l2_thread_loop 1 (pdp_v4l2_thread_enter
          (pdp_v4l2_open (fresh sample_policy "" camera) "/dev/video0"))).2.x.x_last_frame = 1
      ∧ (pdp_v4l2_bang (pdp_v4l2_thread_loop 1 (pdp_v4l2_thread_enter
          (pdp_v4l2_open (fresh sample_policy "" camera) "/dev/video0"))).2 true).1.map
            Delivery.slot = some 0
      ∧ (List.range 4).map (fun k => (pdp_v4l2_thread_loop (k + 1) (pdp_v4l2_thread_enter
          (pdp_v4l2_open (fresh sample_policy "" camera) "/dev/video0"))).2.x.x_last_frame)
        = [0, 1, 0, 1])
    ∧ ((pdp_v4l2_open (fresh sample_policy "" camera_no_streamon)
          "/dev/video0").x.x_initialized = true
      ∧ (pdp_v4l2_open (fresh sample_policy "" camera_no_streamon)
          "/dev/video0").x.x_reqbufs_count = 2
      ∧ (pdp_v4l2_thread_enter (pdp_v4l2_open (fresh sample_policy "" camera_no_streamon)
          "/dev/video0")).w.exited = true
      ∧ (pdp_v4l2_thread_loop 1 (pdp_v4l2_thread_enter (pdp_v4l2_open
          (fresh sample_policy "" camera_no_streamon) "/dev/video0"))).2.w.dqbufs = 0
      ∧ (pdp_v4l2_thread_loop 1 (pdp_v4l2_thread_enter (pdp_v4l2_open
          (fresh sample_policy "" camera_no_streamon) "/dev/video0"))).2.x.x_frame_ready = 0)
    ∧ ((pdp_v4l2_open (fresh sample_policy "" camera_no_requeue)
          "/dev/video0").x.x_initialized = true
      ∧ (pdp_v4l2_open (fresh sample_policy "" camera_no_requeue)
          "/dev/video0").x.x_reqbufs_count = 2
      ∧ (pdp_v4l2_thread_enter (pdp_v4l2_open (fresh sample_policy "" camera_no_requeue)
          "/dev/video0")).w.exited = false
      ∧ ((pdp_v4l2_thread_loop 1 (pdp_v4l2_thread_enter (pdp_v4l2_open
          (fresh sample_policy "" camera_no_requeue) "/dev/video0"))).2.w.trace.take 4)
        = [⟨.exit, ⟨0, 0, 0, 0⟩⟩, ⟨.ioctl 3 (.VIDIOC_QBUF 0), ⟨-1, 22, 0, 0⟩⟩,
           ⟨.ioctl 3 (.VIDIOC_DQBUF 0), ⟨0, 0, 0, 0⟩⟩, ⟨.select 3, ⟨1, 0, 0, 0⟩⟩]
      ∧ (pdp_v4l2_thread_loop 1 (pdp_v4l2_thread_enter (pdp_v4l2_open
          (fresh sample_policy "" camera_no_requeue) "/dev/video0"))).2.w.exited = true
      ∧ (pdp_v4l2_thread_loop 1 (pdp_v4l2_thread_enter (pdp_v4l2_open
          (fresh sample_policy "" camera_no_requeue) "/dev/video0"))).2.x.x_frame_ready = 0) :=
  ⟨fun _ _ => by show (0 : Int) < 1; decide,
   fun _ _ _ => by show (0 : Int) ≠ -1; decide,
   fun _ _ => by show (0 : Int) < 1; decide,
   fun _ _ _ => by show (0 : Int) ≠ -1; decide,
   fun _ _ => by show (0 : Int) < 1; decide,
   fun _ _ _ => by show (0 : Int) ≠ -1; decide,
   by decide, by decide, by decide⟩

/-- C10, as amended: on a freshly constructed engine whose open succeeds, in front of a
driver that switches streaming on and answers every wait, dequeue and enqueue
successfully, round `n + 1` of the loop ends with `x_frame_ready = 1` and
`x_last_frame = n % 2`: the published index is 0 after the first round and alternates
0, 1, 0, ... from there, always in {0, 1}; a poll after round `n + 1` delivers slot
`n % 2`, slot 0 after the first round. -/
theorem capture_index_sequence (P : Imageproc) (vdef name : String) (d : Nat → Call → Answer)
    (n : Nat) (hd : Streaming d)
    (hopen : (pdp_v4l2_open (fresh P vdef d) name).x.x_initialized = true) :
    (pdp_v4l2_thread_loop (n + 1) (pdp_v4l2_thread_enter
        (pdp_v4l2_open (fresh P vdef d) name))).1 = false
    ∧ (pdp_v4l2_thread_loop (n + 1) (pdp_v4l2_thread_enter
        (pdp_v4l2_open (fresh P vdef d) name))).2.x.x_frame_ready = 1
    ∧ (pdp_v4l2_thread_loop (n + 1) (pdp_v4l2_thread_enter
        (pdp_v4l2_open (fresh P vdef d) name))).2.x.x_last_frame = n % 2
    ∧ (pdp_v4l2_thread_loop (n + 1) (pdp_v4l2_thread_enter
        (pdp_v4l2_open (fresh P vdef d) name))).2.x.x_last_frame < 2
    ∧ (pdp_v4l2_bang (pdp_v4l2_thread_loop (n + 1) (pdp_v4l2_thread_enter
        (pdp_v4l2_open (fresh P vdef d) name))).2 true).1.map Delivery.slot = some (n % 2) := by
  obtain ⟨o1, o2, -, o4, o5, o6⟩ := open_initialized (fresh P vdef d) name hopen
  have hd' : Streaming (pdp_v4l2_open (fresh P vdef d) name).w.driver := by
    rw [o5]; exact hd
  obtain ⟨e1, e2, e3, e4, e5, e6⟩ := thread_enter_streaming _ (o1) hd'
  have hfr : (pdp_v4l2_thread_enter (pdp_v4l2_open (fresh P vdef d) name)).x.x_frame = 1 := by
    rw [e6, o4]
    show (0 : Nat) ^^^ 0x1 = 1
    decide
  obtain ⟨l1, l2, -, l4, l5⟩ := thread_loop_streaming n
    (pdp_v4l2_thread_enter (pdp_v4l2_open (fresh P vdef d) name))
    (by rw [e1]; exact o1) (by rw [e2, o2]; decide) (by rw [e4, o6]; rfl)
    (by rw [hfr]; decide) (by rw [e5]; exact hd')
  have hlast : (pdp_v4l2_thread_loop (n + 1) (pdp_v4l2_thread_enter
      (pdp_v4l2_open (fresh P vdef d) name))).2.x.x_last_frame = n % 2 := by
    rw [l4, hfr]; omega
  refine ⟨l1, l5, hlast, by rw [hlast]; omega, ?_⟩
  rw [bang_of_initialized _ _ (by rw [l2, e3]; exact hopen),
    bang_frame_ready _ (by rw [l5]; decide)]
  simp only [Option.map_some', hlast]

set_option maxRecDepth 100000 in
/-- C10, as amended, at a concrete input: the camera, third round of the loop. -/
theorem capture_index_sequence_witness :
    (pdp_v4l2_thread_loop 3 (pdp_v4l2_thread_enter
        (pdp_v4l2_open (fresh sample_policy "" camera) "/dev/video0"))).2.x.x_frame_ready = 1
    ∧ (pdp_v4l2_thread_loop 3 (pdp_v4l2_thread_enter
        (pdp_v4l2_open (fresh sample_policy "" camera) "/dev/video0"))).2.x.x_last_frame = 2 % 2
    ∧ (pdp_v4l2_thread_loop 3 (pdp_v4l2_thread_enter
        (pdp_v4l2_open (fresh sample_policy "" camera) "/dev/video0"))).2.x.x_last_frame < 2
    ∧ (pdp_v4l2_bang (pdp_v4l2_thread_loop 3 (pdp_v4l2_thread_enter
        (pdp_v4l2_open (fresh sample_policy "" camera) "/dev/video0"))).2 true).1.map
          Delivery.slot = some (2 % 2) :=
  (capture_index_sequence sample_policy "" "/dev/video0" camera 2 camera_streaming
    (by decide)).2

set_option maxRecDepth 100000 in
/-- C11 fails as stated.  In front of the camera whose waits are interrupted (`select`
reports the error `EINTR`) the first round of the loop closes nothing, dequeues,
re-enqueues and publishes.  In front of the stalled camera (`select` times out) the first
round closes the engine and then still issues a dequeue, on descriptor `-1`, and the
process exits. -/
theorem wait_failure_not_fail_fast :
    (pdp_v4l2_thread_loop 1 (pdp_v4l2_thread_enter (pdp_v4l2_open
        (fresh sample_policy "" camera_interrupted) "/dev/video0"))).2.x.x_continue_thread = 1
    ∧ (pdp_v4l2_thread_loop 1 (pdp_v4l2_thread_enter (pdp_v4l2_open
        (fresh sample_policy "" camera_interrupted) "/dev/video0"))).2.x.x_tvfd = 3
    ∧ (pdp_v4l2_thread_loop 1 (pdp_v4l2_thread_enter (pdp_v4l2_open
        (fresh sample_policy "" camera_interrupted) "/dev/video0"))).2.x.x_initialized = true
    ∧ (pdp_v4l2_thread_enter (pdp_v4l2_open
        (fresh sample_policy "" camera_interrupted) "/dev/video0")).x.x_frame_ready = 0
    ∧ (pdp_v4l2_thread_loop 1 (pdp_v4l2_thread_enter (pdp_v4l2_open
        (fresh sample_policy "" camera_interrupted) "/dev/video0"))).2.x.x_frame_ready = 1
    ∧ (pdp_v4l2_thread_loop 1 (pdp_v4l2_thread_enter (pdp_v4l2_open
        (fresh sample_policy "" camera_interrupted) "/dev/video0"))).2.w.dqbufs = 1
    ∧ (pdp_v4l2_thread_loop 1 (pdp_v4l2_thread_enter (pdp_v4l2_open
        (fresh sample_policy "" camera_interrupted) "/dev/video0"))).2.w.qbufs
      = (pdp_v4l2_thread_enter (pdp_v4l2_open
        (fresh sample_policy "" camera_interrupted) "/dev/video0")).w.qbufs + 1
    ∧ (pdp_v4l2_thread_enter (pdp_v4l2_open
        (fresh sample_policy "" camera_stalled) "/dev/video0")).w.exited = false
    ∧ (pdp_v4l2_thread_loop 1 (pdp_v4l2_thread_enter (pdp_v4l2_open
        (fresh sample_policy "" camera_stalled) "/dev/video0"))).2.w.exited = true
    ∧ ((pdp_v4l2_thread_loop 1 (pdp_v4l2_thread_enter (pdp_v4l2_open
        (fresh sample_policy "" camera_stalled) "/dev/video0"))).2.w.trace.map Event.call).take 7
      = [.exit, .ioctl (-1) (.VIDIOC_DQBUF 0), .munmap 0x2c200 115200, .munmap 0x10000 115200,
          .close 3, .pthread_join, .select 3] := by
  decide

/-- C11, as amended: in every round of the loop in which the wait times out, or reports an
error other than an interrupted call, `pdp_v4l2_wait_frame` closes the engine (thread flag
cleared, descriptor closed, not initialized), and the round issues no enqueue and writes
neither `x_frame_ready` nor `x_last_frame`.  A wait that reports `EINTR` closes nothing. -/
theorem wait_failure_closes (s t : Sys)
    (hfail : (s.w.answer (.select s.x.x_tvfd)).ret = 0
      ∨ ((s.w.answer (.select s.x.x_tvfd)).ret = -1
        ∧ (s.w.answer (.select s.x.x_tvfd)).errno ≠ EINTR)) :
    pdp_v4l2_wait_frame s = pdp_v4l2_close { s with w := s.w.log (.select s.x.x_tvfd) }
    ∧ (pdp_v4l2_wait_frame s).x.x_continue_thread = 0
    ∧ (pdp_v4l2_wait_frame s).x.x_initialized = false
    ∧ (pdp_v4l2_wait_frame s).x.x_tvfd < 0
    ∧ (pdp_v4l2_thread_body s).w.qbufs = s.w.qbufs
    ∧ (pdp_v4l2_thread_body s).x.x_frame_ready = s.x.x_frame_ready
    ∧ (pdp_v4l2_thread_body s).x.x_last_frame = s.x.x_last_frame
    ∧ ((t.w.answer (.select t.x.x_tvfd)).ret = -1 →
        (t.w.answer (.select t.x.x_tvfd)).errno = EINTR →
        pdp_v4l2_wait_frame t = { t with w := t.w.log (.select t.x.x_tvfd) }) := by
  have hw : pdp_v4l2_wait_frame s
      = pdp_v4l2_close { s with w := s.w.log (.select s.x.x_tvfd) } := by
    simp only [pdp_v4l2_wait_frame]
    rcases hfail with h | ⟨h1, h2⟩
    · rw [if_neg (by rw [h]; decide), if_pos h]
    · rw [if_pos h1, if_neg h2]
  have hx := close_x { s with w := s.w.log (.select s.x.x_tvfd) }
  have hfd : (pdp_v4l2_wait_frame s).x.x_tvfd < 0 := by
    rw [hw, hx]
    show (if s.x.x_tvfd ≥ 0 then (-1 : Int) else s.x.x_tvfd) < 0
    split_ifs with h
    · decide
    · exact not_le.mp h
  have hq : (pdp_v4l2_wait_frame s).w.qbufs = s.w.qbufs := by
    rw [hw, close_qbufs]
    simp [World.qbufs, Event.is_qbuf]
  have hb := capture_frame_bad_descriptor
    { pdp_v4l2_wait_frame s with x.x_frame := (pdp_v4l2_wait_frame s).x.x_frame ^^^ 0x1 } hfd
  have hs := capture_frame_slot
    { pdp_v4l2_wait_frame s with x.x_frame := (pdp_v4l2_wait_frame s).x.x_frame ^^^ 0x1 }
  have hbody : pdp_v4l2_thread_body s = (pdp_v4l2_capture_frame
      { pdp_v4l2_wait_frame s with x.x_frame := (pdp_v4l2_wait_frame s).x.x_frame ^^^ 0x1 }).2 := by
    simp only [pdp_v4l2_thread_body]
    rw [if_pos hb.1]
  refine ⟨hw, by rw [hw, hx], by rw [hw, hx], hfd, ?_, ?_, ?_, ?_⟩
  · rw [hbody, hb.2]
    exact hq
  · rw [hbody, hs.1]
    show (pdp_v4l2_wait_frame s).x.x_frame_ready = _
    rw [hw, hx]
  · rw [hbody, hs.2]
    show (pdp_v4l2_wait_frame s).x.x_last_frame = _
    rw [hw, hx]
  · intro h1 h2
    simp only [pdp_v4l2_wait_frame]
    rw [if_pos h1, if_pos h2]

set_option maxRecDepth 100000 in
/-- C11, as amended, at a concrete input: the first round in front of the stalled camera. -/
theorem wait_failure_closes_witness :
    (pdp_v4l2_wait_frame (pdp_v4l2_thread_enter (pdp_v4l2_open
        (fresh sample_policy "" camera_stalled) "/dev/video0"))).x.x_continue_thread = 0
    ∧ (pdp_v4l2_wait_frame (pdp_v4l2_thread_enter (pdp_v4l2_open
        (fresh sample_policy "" camera_stalled) "/dev/video0"))).x.x_initialized = false
    ∧ (pdp_v4l2_wait_frame (pdp_v4l2_thread_enter (pdp_v4l2_open
        (fresh sample_policy "" camera_stalled) "/dev/video0"))).x.x_tvfd < 0
    ∧ (pdp_v4l2_thread_body (pdp_v4l2_thread_enter (pdp_v4l2_open
        (fresh sample_policy "" camera_stalled) "/dev/video0"))).w.qbufs
      = (pdp_v4l2_thread_enter (pdp_v4l2_open
        (fresh sample_policy "" camera_stalled) "/dev/video0")).w.qbufs
    ∧ (pdp_v4l2_thread_body (pdp_v4l2_thread_enter (pdp_v4l2_open
        (fresh sample_policy "" camera_stalled) "/dev/video0"))).x.x_frame_ready
      = (pdp_v4l2_thread_enter (pdp_v4l2_open
        (fresh sample_policy "" camera_stalled) "/dev/video0")).x.x_frame_ready
    ∧ (pdp_v4l2_thread_body (pdp_v4l2_thread_enter (pdp_v4l2_open
        (fresh sample_policy "" camera_stalled) "/dev/video0"))).x.x_last_frame
      = (pdp_v4l2_thread_enter (pdp_v4l2_open
        (fresh sample_policy "" camera_stalled) "/dev/video0")).x.x_last_frame :=
  ((wait_failure_closes
    (pdp_v4l2_thread_enter (pdp_v4l2_open (fresh sample_policy "" camera_stalled) "/dev/video0"))
    (pdp_v4l2_thread_enter (pdp_v4l2_open (fresh sample_policy "" camera_interrupted)
      "/dev/video0"))
    (Or.inl (by decide))).2).imp_right
      fun h => ⟨h.1, h.2.1, h.2.2.1, h.2.2.2.1, h.2.2.2.2.1⟩

set_option maxRecDepth 100000 in
/-- C12, evaluated where it fails: in front of the camera that answers every dequeue with
"try again", the rounds of the loop do not end the process and issue no enqueue, but each
of them publishes: the first one sets `x_frame_ready` from 0 to 1 and a poll then delivers
slot 0, the second one moves `x_last_frame` from 0 to 1, although no buffer was ever
dequeued; the loop goes on. -/
theorem try_again_still_publishes :
    (pdp_v4l2_thread_enter (pdp_v4l2_open
        (fresh sample_policy "" camera_try_again) "/dev/video0")).x.x_frame_ready = 0
    ∧ (pdp_v4l2_thread_loop 1 (pdp_v4l2_thread_enter (pdp_v4l2_open
        (fresh sample_policy "" camera_try_again) "/dev/video0"))).2.w.exited = false
    ∧ (pdp_v4l2_thread_loop 1 (pdp_v4l2_thread_enter (pdp_v4l2_open
        (fresh sample_policy "" camera_try_again) "/dev/video0"))).2.w.dqbufs = 1
    ∧ (pdp_v4l2_thread_loop 1 (pdp_v4l2_thread_enter (pdp_v4l2_open
        (fresh sample_policy "" camera_try_again) "/dev/video0"))).2.w.qbufs
      = (pdp_v4l2_thread_enter (pdp_v4l2_open
        (fresh sample_policy "" camera_try_again) "/dev/video0")).w.qbufs
    ∧ (pdp_v4l2_thread_loop 1 (pdp_v4l2_thread_enter (pdp_v4l2_open
        (fresh sample_policy "" camera_try_again) "/dev/video0"))).2.w.queued = [1, 0]
    ∧ (pdp_v4l2_thread_loop 1 (pdp_v4l2_thread_enter (pdp_v4l2_open
        (fresh sample_policy "" camera_try_again) "/dev/video0"))).2.x.x_frame_ready = 1
    ∧ (pdp_v4l2_bang (pdp_v4l2_thread_loop 1 (pdp_v4l2_thread_enter (pdp_v4l2_open
        (fresh sample_policy "" camera_try_again) "/dev/video0"))).2 true).1.map Delivery.slot
      = some 0
    ∧ (pdp_v4l2_thread_loop 1 (pdp_v4l2_thread_enter (pdp_v4l2_open
        (fresh sample_policy "" camera_try_again) "/dev/video0"))).2.x.x_last_frame = 0
    ∧ (pdp_v4l2_thread_loop 2 (pdp_v4l2_thread_enter (pdp_v4l2_open
        (fresh sample_policy "" camera_try_again) "/dev/video0"))).2.x.x_last_frame = 1
    ∧ (pdp_v4l2_thread_loop 2 (pdp_v4l2_thread_enter (pdp_v4l2_open
        (fresh sample_policy "" camera_try_again) "/dev/video0"))).2.w.qbufs
      = (pdp_v4l2_thread_enter (pdp_v4l2_open
        (fresh sample_policy "" camera_try_again) "/dev/video0")).w.qbufs
    ∧ (pdp_v4l2_thread_loop 2 (pdp_v4l2_thread_enter (pdp_v4l2_open
        (fresh sample_policy "" camera_try_again) "/dev/video0"))).1 = false := by
  decide

set_option maxRecDepth 100000 in
/-- C13, evaluated where it fails.  With 1 buffer granted `pdp_v4l2_init_mmap` queries and
maps one buffer, enqueues two and returns success.  With 3 granted it queries three,
writing `x_v4l2_buf[2]` outside the array, and enqueues two.  With 0 granted, in front of
a driver that accepts the two enqueue requests, it maps nothing and returns success, and
the open ends initialized. -/
theorem init_mmap_ignores_granted_count :
    (pdp_v4l2_init_mmap (before_mmap (camera_grants 1))).1 = 0
    ∧ (pdp_v4l2_init_mmap (before_mmap (camera_grants 1))).2.x.x_reqbufs_count = 1
    ∧ (pdp_v4l2_init_mmap (before_mmap (camera_grants 1))).2.w.querybufs = 1
    ∧ (pdp_v4l2_init_mmap (before_mmap (camera_grants 1))).2.w.maps = 1
    ∧ (pdp_v4l2_init_mmap (before_mmap (camera_grants 1))).2.w.qbufs = 2
    ∧ (pdp_v4l2_init_mmap (before_mmap (camera_grants 1))).2.w.fault = false
    ∧ (pdp_v4l2_init_mmap (before_mmap (camera_grants 3))).2.x.x_reqbufs_count = 3
    ∧ (pdp_v4l2_init_mmap (before_mmap (camera_grants 3))).2.w.querybufs = 3
    ∧ (pdp_v4l2_init_mmap (before_mmap (camera_grants 3))).2.w.fault = true
    ∧ (pdp_v4l2_init_mmap (before_mmap (camera_grants 3))).2.w.qbufs = 2
    ∧ (pdp_v4l2_init_mmap (before_mmap (camera_grants 0))).2.x.x_reqbufs_count = 0
    ∧ (pdp_v4l2_init_mmap (before_mmap (camera_grants 0))).1 = 0
    ∧ (pdp_v4l2_init_mmap (before_mmap (camera_grants 0))).2.w.maps = 0
    ∧ (pdp_v4l2_init_mmap (before_mmap (camera_grants 0))).2.w.qbufs = 2
    ∧ (pdp_v4l2_open (fresh sample_policy "" (camera_grants 0)) "/dev/video0").x.x_initialized
      = true := by
  decide

end PdpV4l2
